import Mathlib

/-!
# Smart home hub: shared security / device state machine

A shallow embedding of `main/app_main.c`: the key handler of `keypad_task`,
the locked section of one `sensor_task` iteration and the remote write callback
`write_cb`, each as a function from the global state to the next state and the
ordered list of externally visible calls it makes.

Conventions.
* C `int` is `Int`; the one increment in the program is wrapped to 32 bits.
* A NUL-terminated C string is the `String` of the characters before the
  terminator; `password_buffer` is kept as its five cells.
* The `float` distance sample is a rational number.
* `ESP_LOGx` and `ESP_DIAG_EVENT` calls are not recorded.
-/

namespace SmartHome

/-! ## Data model -/

/-- The string terminator. -/
def NUL : Char := Char.ofNat 0

/-- The array `static char password_buffer[5]`. -/
structure Buf5 where
  c0 : Char
  c1 : Char
  c2 : Char
  c3 : Char
  c4 : Char
deriving DecidableEq, Repr

/-- The result of `memset(password_buffer, 0, sizeof(password_buffer))`. -/
def Buf5.zero : Buf5 := ⟨NUL, NUL, NUL, NUL, NUL⟩

/-- The cells of the array, in order. -/
def Buf5.toList (b : Buf5) : List Char := [b.c0, b.c1, b.c2, b.c3, b.c4]

/-- The assignment `password_buffer[i] = c`; an index outside the array is not
written (the program never produces one). -/
def Buf5.set (b : Buf5) (i : Nat) (c : Char) : Buf5 :=
  match i with
  | 0 => { b with c0 := c }
  | 1 => { b with c1 := c }
  | 2 => { b with c2 := c }
  | 3 => { b with c3 := c }
  | 4 => { b with c4 := c }
  | _ => b

/-- The C string held in the array: the cells before the first terminator. -/
def Buf5.cstr (b : Buf5) : List Char := b.toList.takeWhile (fun c => c != NUL)

/-- The test `strcmp(password_buffer, master_password) == 0`. -/
def strcmp_eq (b : Buf5) (m : String) : Bool := decide (b.cstr = m.toList)

/-- Wrap to the range of a 32-bit `int`. -/
def wrap32 (x : Int) : Int := (x + 2147483648) % 4294967296 - 2147483648

/-- The globals of `app_main.c` under "State", together with the
`last_activity_time` local of `sensor_task`, which lives across iterations. -/
structure State where
  system_armed : Bool
  door_is_open : Bool
  password_buffer : Buf5
  password_index : Nat
  master_password : String
  fan_state : Bool
  fan_speed : Int
  light_state : Bool
  tv_state : Bool
  plug_state : Bool
  last_activity_time : Int
deriving DecidableEq, Repr

/-- The initial values of the globals (`DEFAULT_PASSWORD` is "2580"). -/
def State.init : State where
  system_armed := true
  door_is_open := false
  password_buffer := Buf5.zero
  password_index := 0
  master_password := "2580"
  fan_state := false
  fan_speed := 0
  light_state := false
  tv_state := false
  plug_state := false
  last_activity_time := 0

/-- A parameter handle, identified by the device it is added to and its name. -/
structure ParamRef where
  device : String
  name : String
deriving DecidableEq, Repr

/-- A value of `esp_rmaker_param_val_t`. -/
inductive Val where
  | b (v : Bool)
  | i (v : Int)
  | s (v : String)
deriving DecidableEq, Repr

/-- The member `val.val.b`. -/
def Val.getB : Val → Bool
  | .b v => v
  | _ => false

/-- The member `val.val.i`. -/
def Val.getI : Val → Int
  | .i v => v
  | _ => 0

/-- The member `val.val.s`. -/
def Val.getS : Val → String
  | .s v => v
  | _ => ""

/-- The LED pins driven by `sensor_task`: the red and the green one. -/
inductive Gpio where
  | LED_RED
  | LED_GREEN
deriving DecidableEq, Repr

/-- One externally visible call made by a handler. -/
inductive Action where
  | xSemaphoreTake
  | xSemaphoreGive
  | report (p : ParamRef) (v : Val)
  | raise_alert (msg : String)
  | beep (ms : Nat)
  | vTaskDelay (ticks : Nat)
  | buzzer_tone (level : Bool)
  | buzzer_fan_sound
  | buzzer_light_sound
  | buzzer_tv_sound
  | buzzer_plug_sound
  | buzzer_doorbell
  | buzzer_fan_speed_sound (speed : Int)
  | buzzer_error_sound
  | indicate_device_on
  | get_distance_cm
  | gpio_set_level (pin : Gpio) (level : Nat)
  | nvs_store (key : String) (value : String)
  | wait_key_release
deriving DecidableEq, Repr

/-! ### Parameter handles created in `app_main` -/

def param_alert : ParamRef := ⟨"Home", "System Alert"⟩
def param_home_fan : ParamRef := ⟨"Home", "Fan Status"⟩
def param_home_light : ParamRef := ⟨"Home", "Light Status"⟩
def param_home_tv : ParamRef := ⟨"Home", "TV Status"⟩
def param_home_plug : ParamRef := ⟨"Home", "Plug Status"⟩
def param_home_door : ParamRef := ⟨"Home", "Door Status"⟩
def param_home_sec : ParamRef := ⟨"Home", "Security Mode"⟩
def param_door_status : ParamRef := ⟨"Security", "Door"⟩
def param_sec_status : ParamRef := ⟨"Security", "Status"⟩
def param_fan_power : ParamRef := ⟨"Fan", "Power"⟩
def param_fan_status : ParamRef := ⟨"Fan", "Status"⟩
def param_fan_speed : ParamRef := ⟨"Fan", "Speed"⟩
def param_light_power : ParamRef := ⟨"Light", "Power"⟩
def param_light_status : ParamRef := ⟨"Light", "Status"⟩
def param_tv_power : ParamRef := ⟨"TV", "Power"⟩
def param_tv_status : ParamRef := ⟨"TV", "Status"⟩
def param_plug_power : ParamRef := ⟨"Plug", "Power"⟩
def param_plug_status : ParamRef := ⟨"Plug", "Status"⟩

/-! ## Operations -/

/-- The function `send_alert`: the alert parameter is updated, then the alert is raised. -/
def send_alert (msg : String) : List Action :=
  [Action.report param_alert (Val.s msg), Action.raise_alert msg]

/-- The text built by the two `snprintf` calls on `buf` from `fan_speed`. -/
def fan_status_text (fan_speed : Int) : String :=
  if fan_speed = 0 then "Fan Off" else "Fan Speed " ++ toString fan_speed

/-- The dispatch on `key` between `xSemaphoreTake` and `xSemaphoreGive` in `keypad_task`. -/
def keypad_dispatch (s : State) (key : Char) : State × List Action :=
  if key = 'A' then
    let sp := wrap32 (s.fan_speed + 1)
    let sp := if sp > 5 then 0 else sp
    let st := decide (sp > 0)
    ({ s with fan_speed := sp, fan_state := st },
      [Action.indicate_device_on, Action.buzzer_fan_speed_sound sp,
       Action.report param_fan_power (Val.b st),
       Action.report param_fan_speed (Val.i sp),
       Action.report param_fan_status (Val.s (fan_status_text sp)),
       Action.report param_home_fan (Val.s (fan_status_text sp))]
      ++ send_alert (if st then "Fan Turned ON (Keypad)" else "Fan Turned OFF (Keypad)"))
  else if key = 'B' then
    let st := !s.light_state
    ({ s with light_state := st },
      (if st then [Action.buzzer_light_sound] else [])
      ++ [Action.indicate_device_on,
          Action.report param_light_power (Val.b st),
          Action.report param_light_status (Val.s (if st then "Light On" else "Light Off")),
          Action.report param_home_light (Val.s (if st then "On" else "Off"))]
      ++ send_alert (if st then "Light Turned ON (Keypad)" else "Light Turned OFF (Keypad)"))
  else if key = 'C' then
    let st := !s.tv_state
    ({ s with tv_state := st },
      (if st then [Action.buzzer_tv_sound] else [])
      ++ [Action.indicate_device_on,
          Action.report param_tv_power (Val.b st),
          Action.report param_tv_status (Val.s (if st then "TV On" else "TV Off")),
          Action.report param_home_tv (Val.s (if st then "On" else "Off"))]
      ++ send_alert (if st then "TV Turned ON (Keypad)" else "TV Turned OFF (Keypad)"))
  else if key = 'D' then
    let st := !s.plug_state
    ({ s with plug_state := st },
      (if st then [Action.buzzer_plug_sound] else [])
      ++ [Action.indicate_device_on,
          Action.report param_plug_power (Val.b st),
          Action.report param_plug_status (Val.s (if st then "Plug On" else "Plug Off")),
          Action.report param_home_plug (Val.s (if st then "On" else "Off"))]
      ++ send_alert (if st then "Plug Turned ON (Keypad)" else "Plug Turned OFF (Keypad)"))
  else if key = '*' then
    ({ s with password_index := 0, password_buffer := Buf5.zero },
      [Action.report param_sec_status (Val.s "Cleared")])
  else if key = '#' then
    if strcmp_eq s.password_buffer s.master_password then
      let armed := !s.system_armed
      ({ s with system_armed := armed, password_index := 0, password_buffer := Buf5.zero },
        [Action.buzzer_tone false]
        ++ (if armed then
              [Action.beep 100, Action.vTaskDelay 100, Action.beep 100]
              ++ send_alert "Door Locked via Keypad"
              ++ [Action.report param_sec_status (Val.s "Door Locked"),
                  Action.report param_home_sec (Val.s "Locked")]
            else
              [Action.beep 500]
              ++ send_alert "Door Unlocked via Keypad"
              ++ [Action.report param_sec_status (Val.s "Door Unlocked"),
                  Action.report param_home_sec (Val.s "Unlocked")]))
    else
      ({ s with password_index := 0, password_buffer := Buf5.zero },
        [Action.report param_sec_status (Val.s "Wrong Password"), Action.buzzer_error_sound]
        ++ send_alert "Invalid Password Entered")
  else if '0' ≤ key ∧ key ≤ '9' then
    if s.password_index < 4 then
      ({ s with
          password_buffer :=
            (s.password_buffer.set s.password_index key).set (s.password_index + 1) NUL,
          password_index := s.password_index + 1 },
        [Action.report param_sec_status (Val.s "Entering Password...")])
    else
      (s, [])
  else
    (s, [])

/-- The handling of one detected key in `keypad_task`: the key beep, the locked
dispatch, and the wait for the key to be released. -/
def keypad_key (s : State) (key : Char) : State × List Action :=
  ((keypad_dispatch s key).1,
    [Action.beep 50, Action.xSemaphoreTake] ++ (keypad_dispatch s key).2
      ++ [Action.xSemaphoreGive, Action.wait_key_release])

/-- What one iteration of `sensor_task` reads from its environment: the distance
sample, the clock value returned where `last_activity_time` is stamped, the clock
value returned in the timeout test, and the `blinking_active` flag. -/
structure TickInput where
  dist : Rat
  t_stamp : Int
  t_check : Int
  blinking_active : Bool
deriving DecidableEq, Repr

/-- The test `dist > 0 && dist < DOOR_THRESHOLD_CM`, with the threshold 15.0. -/
def person_nearby (dist : Rat) : Bool := decide (0 < dist) && decide (dist < 15)

/-- The door state machine of one `sensor_task` iteration (the `if (!door_is_open)`
statement). -/
def sensor_door (s : State) (inp : TickInput) : State × List Action :=
  if !s.door_is_open then
    if person_nearby inp.dist && !s.system_armed then
      ({ s with door_is_open := true, last_activity_time := inp.t_stamp },
        [Action.report param_door_status (Val.b true),
         Action.report param_home_door (Val.s "Open"),
         Action.buzzer_doorbell]
        ++ send_alert "Automatic Door Opened"
        ++ [Action.report param_sec_status (Val.s "Door Opened"),
            Action.report param_home_sec (Val.s "Door Open")])
    else
      (s, [])
  else
    let last := if person_nearby inp.dist then inp.t_stamp else s.last_activity_time
    if decide (inp.t_check - last > 10000000) || s.system_armed then
      let armed := if !s.system_armed then true else s.system_armed
      ({ s with door_is_open := false, system_armed := armed, last_activity_time := last },
        send_alert (if !s.system_armed then "System Auto-Armed: No Activity" else "Door Closed")
        ++ [Action.report param_door_status (Val.b false),
            Action.report param_home_door (Val.s "Closed"),
            Action.report param_sec_status (Val.s (if armed then "Door Locked" else "Door Unlocked")),
            Action.report param_home_sec (Val.s (if armed then "Locked" else "Unlocked"))])
    else
      ({ s with last_activity_time := last }, [])

/-- The indicator LED policy at the end of the locked section (the
`if (!blinking_active)` statement). -/
def sensor_leds (s : State) (blinking_active : Bool) : List Action :=
  if !blinking_active then
    (if s.system_armed then
        [Action.gpio_set_level Gpio.LED_RED 1, Action.gpio_set_level Gpio.LED_GREEN 0]
      else if s.door_is_open then
        [Action.gpio_set_level Gpio.LED_RED 0, Action.gpio_set_level Gpio.LED_GREEN 1]
      else
        [Action.gpio_set_level Gpio.LED_RED 0, Action.gpio_set_level Gpio.LED_GREEN 0])
    ++ [Action.buzzer_tone false]
  else
    []

/-- One monitor tick: the section of a `sensor_task` iteration from `xSemaphoreTake`
to `xSemaphoreGive`. The temperature sampling that follows the release runs on its
own two-second period and touches none of the state; it is not part of the tick. -/
def sensor_tick (s : State) (inp : TickInput) : State × List Action :=
  ((sensor_door s inp).1,
    [Action.xSemaphoreTake, Action.get_distance_cm] ++ (sensor_door s inp).2
      ++ sensor_leds (sensor_door s inp).1 inp.blinking_active ++ [Action.xSemaphoreGive])

/-- The `"Power"` branch of `write_cb` for the device `"Fan"`, up to and including its
`send_alert`; the second component is the local `changed`. -/
def write_fan_power (s : State) (state : Bool) : State × Bool × List Action :=
  let changed := s.fan_state != state
  let fs := if s.fan_state != state then state else s.fan_state
  let sp := if fs && s.fan_speed == 0 then 1 else s.fan_speed
  let sp := if !fs then 0 else sp
  ({ s with fan_state := fs, fan_speed := sp }, changed,
    [Action.report param_fan_speed (Val.i sp),
     Action.report param_fan_status (Val.s (fan_status_text sp)),
     Action.report param_home_fan (Val.s (fan_status_text sp))]
    ++ (if changed && fs then [Action.buzzer_fan_sound, Action.indicate_device_on]
        else [Action.buzzer_fan_speed_sound sp])
    ++ send_alert (if fs then "Fan Turned ON (App)" else "Fan Turned OFF (App)"))

/-- The `"Power"` branch of `write_cb` for the device `"Light"`. -/
def write_light_power (s : State) (state : Bool) : State × Bool × List Action :=
  let changed := s.light_state != state
  let ls := if s.light_state != state then state else s.light_state
  ({ s with light_state := ls }, changed,
    [Action.report param_light_status (Val.s (if state then "Light On" else "Light Off")),
     Action.report param_home_light (Val.s (if state then "On" else "Off"))]
    ++ (if changed && state then [Action.buzzer_light_sound, Action.indicate_device_on] else [])
    ++ send_alert (if ls then "Light Turned ON (App)" else "Light Turned OFF (App)"))

/-- The `"Power"` branch of `write_cb` for the device `"TV"`. -/
def write_tv_power (s : State) (state : Bool) : State × Bool × List Action :=
  let changed := s.tv_state != state
  let ts := if s.tv_state != state then state else s.tv_state
  ({ s with tv_state := ts }, changed,
    [Action.report param_tv_status (Val.s (if state then "TV On" else "TV Off")),
     Action.report param_home_tv (Val.s (if state then "On" else "Off"))]
    ++ (if changed && state then [Action.buzzer_tv_sound, Action.indicate_device_on] else [])
    ++ send_alert (if ts then "TV Turned ON (App)" else "TV Turned OFF (App)"))

/-- The `"Power"` branch of `write_cb` for the device `"Plug"`. -/
def write_plug_power (s : State) (state : Bool) : State × Bool × List Action :=
  let changed := s.plug_state != state
  let ps := if s.plug_state != state then state else s.plug_state
  ({ s with plug_state := ps }, changed,
    [Action.report param_plug_status (Val.s (if state then "Plug On" else "Plug Off")),
     Action.report param_home_plug (Val.s (if state then "On" else "Off"))]
    ++ (if changed && state then [Action.buzzer_plug_sound, Action.indicate_device_on] else [])
    ++ send_alert (if ps then "Plug Turned ON (App)" else "Plug Turned OFF (App)"))

/-- The device dispatch of the `"Power"` branch of `write_cb`. -/
def write_power (s : State) (device_name : String) (state : Bool) :
    State × Bool × List Action :=
  if device_name = "Fan" then write_fan_power s state
  else if device_name = "Light" then write_light_power s state
  else if device_name = "TV" then write_tv_power s state
  else if device_name = "Plug" then write_plug_power s state
  else (s, false, [])

/-- The remote write callback `write_cb`, called with the names of the addressed
device and parameter and the received value. It takes no lock. `strlen` counts
bytes, and `sizeof(master_password)` is 16. -/
def write_cb (s : State) (device_name param_name : String) (val : Val) :
    State × List Action :=
  let param : ParamRef := ⟨device_name, param_name⟩
  if param_name = "Set Password" then
    if 0 < val.getS.utf8ByteSize ∧ val.getS.utf8ByteSize < 16 then
      ({ s with master_password := val.getS },
        [Action.nvs_store "master_pw" val.getS]
        ++ send_alert "Security Password Changed via App"
        ++ [Action.report param (Val.s "Updated")])
    else
      (s, [Action.report param (Val.s "Invalid")])
  else if param_name = "Speed" then
    if device_name = "Fan" then
      let sp := val.getI
      let st := decide (sp > 0)
      ({ s with fan_speed := sp, fan_state := st },
        [Action.report param_fan_power (Val.b st),
         Action.report param_fan_status (Val.s (fan_status_text sp)),
         Action.report param_home_fan (Val.s (fan_status_text sp)),
         Action.buzzer_fan_speed_sound sp]
        ++ send_alert (if st then "Fan Speed Changed (App)" else "Fan Turned OFF (App)")
        ++ [Action.report param val])
    else
      (s, [Action.report param val])
  else if param_name = "Power" then
    let state := val.getB
    let r := write_power s device_name state
    (r.1, r.2.2 ++ (if r.2.1 && state then [Action.buzzer_fan_sound] else [])
      ++ [Action.report param val])
  else
    (s, [])

/-! ## Command sequences -/

/-- The three operations that write the fan state. -/
inductive FanCmd where
  | keyA
  | speed (n : Int)
  | power (p : Bool)
deriving DecidableEq, Repr

/-- The state after one fan operation. -/
def FanCmd.apply (s : State) : FanCmd → State
  | .keyA => (keypad_key s 'A').1
  | .speed n => (write_cb s "Fan" "Speed" (Val.i n)).1
  | .power p => (write_cb s "Fan" "Power" (Val.b p)).1

/-- The state after a sequence of fan operations, first to last. -/
def run_fan (s : State) (cmds : List FanCmd) : State := cmds.foldl FanCmd.apply s

/-- A Speed command carries a non-negative integer below `INT_MAX`; the other
operations are unconstrained. -/
def FanCmd.in_range : FanCmd → Bool
  | .speed n => decide (0 ≤ n) && decide (n < 2147483647)
  | _ => true

/-- The two implications of the fan invariant. -/
def fan_inv (s : State) : Prop :=
  (s.fan_speed > 0 → s.fan_state = true) ∧ (s.fan_state = false → s.fan_speed = 0)

instance (s : State) : Decidable (fan_inv s) := by
  unfold fan_inv; exact inferInstance

/-- The state after a sequence of key presses, first to last. -/
def run_keys (s : State) (keys : List Char) : State :=
  keys.foldl (fun st k => (keypad_key st k).1) s

/-- The invariant kept by in-range fan operations. -/
def fan_strong (s : State) : Prop :=
  0 ≤ s.fan_speed ∧ s.fan_speed < 2147483647 ∧ (s.fan_state = true ↔ s.fan_speed > 0)

/-- The alert messages raised in a trace, in order. -/
def alerts (acts : List Action) : List String :=
  acts.filterMap (fun a => match a with
    | Action.raise_alert msg => some msg
    | _ => none)

/-- The cells below `password_index` hold no terminator, the cell at `password_index`
holds one, and `password_index` is at most 4. -/
def buf_ok (s : State) : Prop :=
  match s.password_index with
  | 0 => s.password_buffer.c0 = NUL
  | 1 => s.password_buffer.c0 ≠ NUL ∧ s.password_buffer.c1 = NUL
  | 2 => s.password_buffer.c0 ≠ NUL ∧ s.password_buffer.c1 ≠ NUL ∧ s.password_buffer.c2 = NUL
  | 3 => s.password_buffer.c0 ≠ NUL ∧ s.password_buffer.c1 ≠ NUL ∧ s.password_buffer.c2 ≠ NUL ∧
      s.password_buffer.c3 = NUL
  | 4 => s.password_buffer.c0 ≠ NUL ∧ s.password_buffer.c1 ≠ NUL ∧ s.password_buffer.c2 ≠ NUL ∧
      s.password_buffer.c3 ≠ NUL ∧ s.password_buffer.c4 = NUL
  | _ => False

/-- The actions of a sequence of key presses, first to last. -/
def keys_trace (s : State) : List Char → List Action
  | [] => []
  | k :: ks => (keypad_key s k).2 ++ keys_trace (keypad_key s k).1 ks

/-- The value last written to the parameter `p` in a trace, if any. -/
def last_report (p : ParamRef) (acts : List Action) : Option Val :=
  (acts.filterMap (fun a => match a with
    | Action.report q v => if q = p then some v else none
    | _ => none)).getLast?

/-- A sound of the buzzer or the device-on blink: the calls into the indicator
functions of `app_support.c`. -/
def Action.is_cue : Action → Bool
  | .buzzer_fan_sound => true
  | .buzzer_light_sound => true
  | .buzzer_tv_sound => true
  | .buzzer_plug_sound => true
  | .buzzer_doorbell => true
  | .buzzer_fan_speed_sound _ => true
  | .buzzer_error_sound => true
  | .indicate_device_on => true
  | _ => false

/-- The indicator cues of a trace, in order. -/
def cues (acts : List Action) : List Action := acts.filter Action.is_cue

/-- A sound or indicator emission, an alert emission or a blocking wait. -/
def Action.is_side_effect : Action → Bool
  | .beep _ => true
  | .raise_alert _ => true
  | .vTaskDelay _ => true
  | .get_distance_cm => true
  | .wait_key_release => true
  | a => a.is_cue

/-- The actions of a trace before its first `xSemaphoreTake`. -/
def before_acquire (acts : List Action) : List Action :=
  acts.takeWhile (fun a => a != Action.xSemaphoreTake)

/-- The actions of a trace between its first `xSemaphoreTake` and the
`xSemaphoreGive` that follows. -/
def locked_section (acts : List Action) : List Action :=
  ((acts.dropWhile (fun a => a != Action.xSemaphoreTake)).drop 1).takeWhile
    (fun a => a != Action.xSemaphoreGive)

/-- The actions of a trace after its first `xSemaphoreGive`. -/
def after_release (acts : List Action) : List Action :=
  (acts.dropWhile (fun a => a != Action.xSemaphoreGive)).drop 1

/-- A decimal digit character. -/
def is_digit (c : Char) : Prop := '0' ≤ c ∧ c ≤ '9'

/-- The buffer of the data model: the cells below `password_index` hold digits, the
cell at `password_index` holds the terminator, and `password_index` is at most 4. -/
def buf_digits (s : State) : Prop :=
  match s.password_index with
  | 0 => s.password_buffer.c0 = NUL
  | 1 => is_digit s.password_buffer.c0 ∧ s.password_buffer.c1 = NUL
  | 2 => is_digit s.password_buffer.c0 ∧ is_digit s.password_buffer.c1 ∧
      s.password_buffer.c2 = NUL
  | 3 => is_digit s.password_buffer.c0 ∧ is_digit s.password_buffer.c1 ∧
      is_digit s.password_buffer.c2 ∧ s.password_buffer.c3 = NUL
  | 4 => is_digit s.password_buffer.c0 ∧ is_digit s.password_buffer.c1 ∧
      is_digit s.password_buffer.c2 ∧ is_digit s.password_buffer.c3 ∧
      s.password_buffer.c4 = NUL
  | _ => False

/-- A string of 1 to 4 decimal digit characters. -/
def digits_1_to_4 (m : String) : Prop :=
  1 ≤ m.data.length ∧ m.data.length ≤ 4 ∧ ∀ c ∈ m.data, is_digit c

/-- The globals after the start of `app_main` with the given content of the NVS key
"master_pw": `nvs_get_str` with a 16-byte buffer loads a stored string of at most 15
bytes into `master_password`; otherwise the default stays. -/
def boot (nvs : Option String) : State :=
  match nvs with
  | some m => if m.utf8ByteSize < 16 then { State.init with master_password := m } else State.init
  | none => State.init

/-- The running program together with the content of the NVS key "master_pw". -/
structure Sys where
  st : State
  nvs : Option String
deriving DecidableEq, Repr

/-- The device as first flashed: the initial globals and nothing stored. -/
def Sys.factory : Sys := ⟨State.init, none⟩

/-- What can happen to the device: a key press, a monitor tick, a remote command
(with the outcome of its `nvs_open`), and a restart (with whether `nvs_flash_init`
erased the store and the outcome of the `nvs_open` of `app_main`). -/
inductive Op where
  | key (k : Char)
  | tick (inp : TickInput)
  | remote (device_name param_name : String) (val : Val) (nvs_ok : Bool)
  | reboot (erased : Bool) (nvs_ok : Bool)
deriving DecidableEq, Repr

/-- The value a trace last stores under an NVS key, if it stores one. -/
def stored_by (acts : List Action) : Option String :=
  (acts.filterMap (fun a => match a with
    | Action.nvs_store _ v => some v
    | _ => none)).getLast?

/-- The device after one event. -/
def Op.apply (y : Sys) : Op → Sys
  | .key k => ⟨(keypad_key y.st k).1, y.nvs⟩
  | .tick inp => ⟨(sensor_tick y.st inp).1, y.nvs⟩
  | .remote device_name param_name val nvs_ok =>
    ⟨(write_cb y.st device_name param_name val).1,
      if nvs_ok then
        (match stored_by (write_cb y.st device_name param_name val).2 with
          | some m => some m
          | none => y.nvs)
      else y.nvs⟩
  | .reboot erased nvs_ok =>
    ⟨if nvs_ok then boot (if erased then none else y.nvs) else State.init,
      if erased then none else y.nvs⟩

/-- The device after a sequence of events, first to last. -/
def run_ops (y : Sys) (ops : List Op) : Sys := ops.foldl Op.apply y

/-- A string that the remote "Set Password" accepts: 1 to 15 bytes. -/
def accepted (m : String) : Prop := 1 ≤ m.utf8ByteSize ∧ m.utf8ByteSize ≤ 15

/-- What every state the device produces satisfies: the buffer holds digits only, and
`master_password` and the stored password, if any, are accepted ones. -/
def producible (y : Sys) : Prop :=
  buf_digits y.st ∧ accepted y.st.master_password ∧ ∀ m, y.nvs = some m → accepted m

/-! ## Theorems -/

/-! ### Fan operations -/

theorem keyA_fan (s : State) :
    (keypad_key s 'A').1.fan_speed
        = (if wrap32 (s.fan_speed + 1) > 5 then 0 else wrap32 (s.fan_speed + 1)) ∧
      (keypad_key s 'A').1.fan_state
        = decide ((if wrap32 (s.fan_speed + 1) > 5 then 0 else wrap32 (s.fan_speed + 1)) > 0) := by
  simp [keypad_key, keypad_dispatch]

theorem speed_fan (s : State) (n : Int) :
    (write_cb s "Fan" "Speed" (Val.i n)).1.fan_speed = n ∧
      (write_cb s "Fan" "Speed" (Val.i n)).1.fan_state = decide (n > 0) := by
  simp [write_cb, Val.getI]

theorem power_fan (s : State) (p : Bool) :
    (write_cb s "Fan" "Power" (Val.b p)).1.fan_state = p ∧
      (write_cb s "Fan" "Power" (Val.b p)).1.fan_speed
        = (if p then (if s.fan_speed = 0 then 1 else s.fan_speed) else 0) := by
  cases p <;> cases h : s.fan_state <;>
    simp [write_cb, write_power, write_fan_power, Val.getB, h]

theorem wrap32_id (x : Int) (h1 : -2147483648 ≤ x) (h2 : x < 2147483648) : wrap32 x = x := by
  unfold wrap32; omega

/-- Every fan operation establishes `speed > 0 → power`, whatever the state before. -/
theorem apply_speed_pos (s : State) (c : FanCmd) :
    (c.apply s).fan_speed > 0 → (c.apply s).fan_state = true := by
  cases c with
  | keyA =>
    have h := keyA_fan s
    simp only [FanCmd.apply]
    rw [h.1, h.2]
    intro hp
    simpa using hp
  | speed n =>
    have h := speed_fan s n
    simp only [FanCmd.apply]
    rw [h.1, h.2]
    intro hp
    simpa using hp
  | power p =>
    have h := power_fan s p
    simp only [FanCmd.apply]
    rw [h.1, h.2]
    cases p <;> simp

theorem apply_fan_strong (s : State) (c : FanCmd) (hc : c.in_range = true)
    (hs : fan_strong s) : fan_strong (c.apply s) := by
  obtain ⟨h0, h1, h2⟩ := hs
  cases c with
  | keyA =>
    have h := keyA_fan s
    have hw : wrap32 (s.fan_speed + 1) = s.fan_speed + 1 := wrap32_id _ (by omega) (by omega)
    simp only [FanCmd.apply, fan_strong]
    rw [h.1, h.2, hw]
    split_ifs with h5
    · simp
    · refine ⟨by omega, by omega, ?_⟩
      simp
  | speed n =>
    have h := speed_fan s n
    simp only [FanCmd.in_range, Bool.and_eq_true, decide_eq_true_eq] at hc
    simp only [FanCmd.apply, fan_strong]
    rw [h.1, h.2]
    refine ⟨hc.1, hc.2, ?_⟩
    simp
  | power p =>
    have h := power_fan s p
    simp only [FanCmd.apply, fan_strong]
    rw [h.1, h.2]
    cases p
    · simp
    · simp only [if_true, true_iff]
      split_ifs with hz <;> omega

theorem run_fan_strong (cmds : List FanCmd) :
    ∀ s : State, fan_strong s → (∀ c ∈ cmds, c.in_range = true) → fan_strong (run_fan s cmds) := by
  induction cmds with
  | nil => intro s hs _; exact hs
  | cons c cs ih =>
    intro s hs hr
    have hc : c.in_range = true := hr c (List.mem_cons_self c cs)
    have hcs : ∀ d ∈ cs, d.in_range = true := fun d hd => hr d (List.mem_cons_of_mem c hd)
    exact ih (c.apply s) (apply_fan_strong s c hc hs) hcs

theorem run_fan_append (s : State) (cmds : List FanCmd) (c : FanCmd) :
    run_fan s (cmds ++ [c]) = c.apply (run_fan s cmds) := by
  simp [run_fan, List.foldl_append]

theorem run_fan_speed_pos (cmds : List FanCmd) (s : State)
    (hs : s.fan_speed > 0 → s.fan_state = true) :
    (run_fan s cmds).fan_speed > 0 → (run_fan s cmds).fan_state = true := by
  rcases List.eq_nil_or_concat cmds with h | ⟨cs, c, h⟩
  · subst h; exact hs
  · subst h
    rw [List.concat_eq_append, run_fan_append]
    exact apply_speed_pos _ c

/-- C1, as stated, fails: from the initial state the remote command Speed(-1)
leaves the fan off with speed -1, so `power = false → speed = 0` does not hold. -/
theorem C1_counterexample : ¬ fan_inv (run_fan State.init [FanCmd.speed (-1)]) := by
  decide

/-- C1, amended: in every state reached from a state with the fan off and speed 0 by
keypad A presses, remote Fan Speed commands and remote Fan Power commands,
`speed > 0 → power = true` holds; when every Speed command carries an integer `n`
with `0 ≤ n < 2147483647` (the declared bounds 0..5 included), both implications of
the fan invariant hold. -/
theorem C1_fan_invariant (s0 : State) (cmds : List FanCmd)
    (hpower : s0.fan_state = false) (hspeed : s0.fan_speed = 0) :
    ((run_fan s0 cmds).fan_speed > 0 → (run_fan s0 cmds).fan_state = true) ∧
      ((∀ c ∈ cmds, c.in_range = true) → fan_inv (run_fan s0 cmds)) := by
  refine ⟨run_fan_speed_pos cmds s0 (by rw [hspeed]; intro h; omega), ?_⟩
  intro hr
  have h := run_fan_strong cmds s0 ⟨by omega, by omega, by rw [hpower, hspeed]; simp⟩ hr
  obtain ⟨h0, _, h2⟩ := h
  refine ⟨h2.2, ?_⟩
  intro hf
  have : ¬ (run_fan s0 cmds).fan_speed > 0 := by
    intro hp
    rw [h2.2 hp] at hf
    exact Bool.noConfusion hf
  omega

theorem C1_fan_invariant_witness :
    fan_inv (run_fan State.init
      [FanCmd.keyA, FanCmd.speed 3, FanCmd.power false, FanCmd.power true, FanCmd.keyA]) :=
  (C1_fan_invariant State.init
    [FanCmd.keyA, FanCmd.speed 3, FanCmd.power false, FanCmd.power true, FanCmd.keyA]
    rfl rfl).2 (by decide)

/-! ### The door monitor -/

theorem keypad_key_door (s : State) (key : Char) :
    (keypad_key s key).1.door_is_open = s.door_is_open := by
  simp only [keypad_key, keypad_dispatch]
  split_ifs <;> rfl

theorem write_power_door (s : State) (device_name : String) (state : Bool) :
    (write_power s device_name state).1.door_is_open = s.door_is_open := by
  simp only [write_power, write_fan_power, write_light_power, write_tv_power, write_plug_power]
  split_ifs <;> rfl

theorem write_cb_door (s : State) (device_name param_name : String) (val : Val) :
    (write_cb s device_name param_name val).1.door_is_open = s.door_is_open := by
  simp only [write_cb]
  split_ifs
  all_goals first | rfl | exact write_power_door s device_name val.getB

/-- C2: a monitor tick that takes `door_is_open` from false to true started with
`system_armed` false and a person detected nearby; a keypad key and a remote command
leave `door_is_open` as it was. -/
theorem C2_door_opens_only_unarmed (s : State) :
    (∀ inp : TickInput, s.door_is_open = false →
        (sensor_tick s inp).1.door_is_open = true →
        s.system_armed = false ∧ person_nearby inp.dist = true) ∧
      (∀ key : Char, (keypad_key s key).1.door_is_open = s.door_is_open) ∧
      (∀ (device_name param_name : String) (val : Val),
        (write_cb s device_name param_name val).1.door_is_open = s.door_is_open) := by
  refine ⟨?_, keypad_key_door s, write_cb_door s⟩
  intro inp hclosed hopen
  simp only [sensor_tick, sensor_door, hclosed] at hopen
  cases ha : s.system_armed <;> cases hp : person_nearby inp.dist <;>
    simp [ha, hp, hclosed] at hopen ⊢

theorem C2_door_opens_only_unarmed_witness :
    ({ State.init with system_armed := false } : State).system_armed = false ∧
      person_nearby (⟨10, 100, 100, false⟩ : TickInput).dist = true :=
  (C2_door_opens_only_unarmed { State.init with system_armed := false }).1
    ⟨10, 100, 100, false⟩ (by decide) (by decide)

/-- C3: a monitor tick never takes `system_armed` from true to false; a tick that
closes the door leaves `system_armed` as it was or sets it to true, and a tick that
does not close the door leaves `system_armed` unchanged. -/
theorem C3_tick_never_disarms (s : State) (inp : TickInput) :
    (s.system_armed = true → (sensor_tick s inp).1.system_armed = true) ∧
      (s.door_is_open = true → (sensor_tick s inp).1.door_is_open = false →
        (sensor_tick s inp).1.system_armed = s.system_armed ∨
          (sensor_tick s inp).1.system_armed = true) ∧
      (¬ (s.door_is_open = true ∧ (sensor_tick s inp).1.door_is_open = false) →
        (sensor_tick s inp).1.system_armed = s.system_armed) := by
  simp only [sensor_tick, sensor_door]
  cases ha : s.system_armed <;> cases hd : s.door_is_open <;>
    cases hp : person_nearby inp.dist <;>
    by_cases ht : inp.t_check - s.last_activity_time > 10000000 <;>
    by_cases ht2 : inp.t_check - inp.t_stamp > 10000000 <;>
    simp [ha, hd, hp, ht, ht2]

theorem C3_tick_never_disarms_witness :
    (sensor_tick { State.init with door_is_open := true } ⟨0, 0, 5, false⟩).1.system_armed
      = true :=
  (C3_tick_never_disarms { State.init with door_is_open := true } ⟨0, 0, 5, false⟩).1 rfl

theorem alerts_sensor_leds (s : State) (b : Bool) : alerts (sensor_leds s b) = [] := by
  cases b <;> cases h1 : s.system_armed <;> cases h2 : s.door_is_open <;>
    simp [sensor_leds, alerts, h1, h2]

theorem alerts_append (xs ys : List Action) : alerts (xs ++ ys) = alerts xs ++ alerts ys := by
  simp [alerts, List.filterMap_append]

/-- C10: from a state with `system_armed` false and the door open, a monitor tick with
no person nearby and more than 10,000,000 microseconds since `last_activity_time`
ends armed with the door closed, and the alerts it raises are exactly
"System Auto-Armed: No Activity". -/
theorem C10_auto_arm (s : State) (inp : TickInput)
    (harmed : s.system_armed = false) (hdoor : s.door_is_open = true)
    (hnear : person_nearby inp.dist = false)
    (htime : inp.t_check - s.last_activity_time > 10000000) :
    (sensor_tick s inp).1.system_armed = true ∧
      (sensor_tick s inp).1.door_is_open = false ∧
      alerts (sensor_tick s inp).2 = ["System Auto-Armed: No Activity"] := by
  have hd : sensor_door s inp =
      ({ s with door_is_open := false, system_armed := true },
        send_alert "System Auto-Armed: No Activity"
        ++ [Action.report param_door_status (Val.b false),
            Action.report param_home_door (Val.s "Closed"),
            Action.report param_sec_status (Val.s "Door Locked"),
            Action.report param_home_sec (Val.s "Locked")]) := by
    simp [sensor_door, harmed, hdoor, hnear, htime]
  refine ⟨?_, ?_, ?_⟩
  · simp [sensor_tick, hd]
  · simp [sensor_tick, hd]
  · simp only [sensor_tick, hd, alerts_append, alerts_sensor_leds]
    simp [alerts, send_alert]

theorem C10_auto_arm_witness :
    (sensor_tick { State.init with system_armed := false, door_is_open := true }
        ⟨-1, 0, 10000001, false⟩).1.system_armed = true ∧
      (sensor_tick { State.init with system_armed := false, door_is_open := true }
        ⟨-1, 0, 10000001, false⟩).1.door_is_open = false ∧
      alerts (sensor_tick { State.init with system_armed := false, door_is_open := true }
        ⟨-1, 0, 10000001, false⟩).2 = ["System Auto-Armed: No Activity"] :=
  C10_auto_arm { State.init with system_armed := false, door_is_open := true }
    ⟨-1, 0, 10000001, false⟩ rfl rfl (by decide) (by decide)

/-! ### Password entry -/

theorem digit_ne_NUL (key : Char) (h0 : '0' ≤ key) : key ≠ NUL := by
  rintro rfl
  exact absurd h0 (by decide)

/-- A digit key reaches the last branch of the dispatch. -/
theorem keypad_dispatch_digit (s : State) (key : Char) (h0 : '0' ≤ key) (h9 : key ≤ '9') :
    keypad_dispatch s key =
      if s.password_index < 4 then
        ({ s with
            password_buffer :=
              (s.password_buffer.set s.password_index key).set (s.password_index + 1) NUL,
            password_index := s.password_index + 1 },
          [Action.report param_sec_status (Val.s "Entering Password...")])
      else (s, []) := by
  have hA : key ≠ 'A' := by rintro rfl; exact absurd h9 (by decide)
  have hB : key ≠ 'B' := by rintro rfl; exact absurd h9 (by decide)
  have hC : key ≠ 'C' := by rintro rfl; exact absurd h9 (by decide)
  have hD : key ≠ 'D' := by rintro rfl; exact absurd h9 (by decide)
  have hS : key ≠ '*' := by rintro rfl; exact absurd h0 (by decide)
  have hH : key ≠ '#' := by rintro rfl; exact absurd h0 (by decide)
  simp only [keypad_dispatch, hA, hB, hC, hD, hS, hH, if_false, h0, h9, and_self, if_true]

theorem buf_ok_zero (s : State) (hidx : s.password_index = 0)
    (hbuf : s.password_buffer = Buf5.zero) : buf_ok s := by
  simp [buf_ok, hidx, hbuf, Buf5.zero]

theorem buf_ok_step (s : State) (key : Char) (h : buf_ok s) : buf_ok (keypad_key s key).1 := by
  by_cases hd : '0' ≤ key ∧ key ≤ '9'
  · have hn := digit_ne_NUL key hd.1
    simp only [keypad_key, keypad_dispatch_digit s key hd.1 hd.2]
    split_ifs with h4
    · obtain ⟨sa, sd, ⟨b0, b1, b2, b3, b4⟩, idx, rest⟩ := s
      simp only at h4
      have : idx = 0 ∨ idx = 1 ∨ idx = 2 ∨ idx = 3 := by omega
      rcases this with rfl | rfl | rfl | rfl <;> simp_all [buf_ok, Buf5.set]
    · exact h
  · simp only [keypad_key, keypad_dispatch, hd, if_false]
    split_ifs
    all_goals first | exact h | simp [buf_ok, Buf5.zero]

theorem buf_ok_run (keys : List Char) : ∀ s : State, buf_ok s → buf_ok (run_keys s keys) := by
  induction keys with
  | nil => intro s h; exact h
  | cons k ks ih => intro s h; exact ih _ (buf_ok_step s k h)

theorem buf_ok_length (s : State) (h : buf_ok s) :
    s.password_index ≤ 4 ∧ s.password_buffer.cstr.length = s.password_index := by
  obtain ⟨sa, sd, ⟨b0, b1, b2, b3, b4⟩, idx, rest⟩ := s
  match idx, h with
  | 0, h => simp_all [buf_ok, Buf5.cstr, Buf5.toList, List.takeWhile_cons]
  | 1, h => simp_all [buf_ok, Buf5.cstr, Buf5.toList, List.takeWhile_cons]
  | 2, h => simp_all [buf_ok, Buf5.cstr, Buf5.toList, List.takeWhile_cons]
  | 3, h => simp_all [buf_ok, Buf5.cstr, Buf5.toList, List.takeWhile_cons]
  | 4, h => simp_all [buf_ok, Buf5.cstr, Buf5.toList, List.takeWhile_cons]
  | n + 5, h => simp [buf_ok] at h

/-- C4: in every state reached by key presses from a state whose buffer is zeroed and
whose `password_index` is 0, `password_index` is at most 4 and is the length of the
string in `password_buffer`; a digit key pressed there with four digits buffered
changes no state and reports nothing. -/
theorem C4_buffer_bound (s0 : State) (keys : List Char)
    (hidx : s0.password_index = 0) (hbuf : s0.password_buffer = Buf5.zero) :
    (run_keys s0 keys).password_index ≤ 4 ∧
      (run_keys s0 keys).password_buffer.cstr.length = (run_keys s0 keys).password_index ∧
      (∀ key : Char, '0' ≤ key → key ≤ '9' →
        (run_keys s0 keys).password_buffer.cstr.length = 4 →
        (keypad_key (run_keys s0 keys) key).1 = run_keys s0 keys ∧
          (keypad_dispatch (run_keys s0 keys) key).2 = []) := by
  have hok := buf_ok_run keys s0 (buf_ok_zero s0 hidx hbuf)
  obtain ⟨hle, hlen⟩ := buf_ok_length _ hok
  refine ⟨hle, hlen, ?_⟩
  intro key h0 h9 h4
  have hfull : ¬ (run_keys s0 keys).password_index < 4 := by omega
  simp only [keypad_key, keypad_dispatch_digit _ key h0 h9, hfull, if_false, and_self]

theorem C4_buffer_bound_witness :
    (run_keys State.init ['1', '2', '3', '4', '5']).password_index ≤ 4 ∧
      (run_keys State.init ['1', '2', '3', '4', '5']).password_buffer.cstr.length
        = (run_keys State.init ['1', '2', '3', '4', '5']).password_index ∧
      (keypad_key (run_keys State.init ['1', '2', '3', '4', '5']) '6').1
        = run_keys State.init ['1', '2', '3', '4', '5'] :=
  have h := C4_buffer_bound State.init ['1', '2', '3', '4', '5'] rfl rfl
  ⟨h.1, h.2.1, (h.2.2 '6' (by decide) (by decide) (by decide)).1⟩

theorem keys_trace_append (l1 : List Char) :
    ∀ (s : State) (l2 : List Char),
      keys_trace s (l1 ++ l2) = keys_trace s l1 ++ keys_trace (run_keys s l1) l2 := by
  induction l1 with
  | nil => intro s l2; rfl
  | cons k ks ih =>
    intro s l2
    have hrun : run_keys s (k :: ks) = run_keys (keypad_key s k).1 ks := rfl
    rw [List.cons_append]
    simp only [keys_trace]
    rw [ih, hrun, List.append_assoc]

theorem last_report_append (p : ParamRef) (t1 t2 : List Action) (v : Val)
    (h : last_report p t2 = some v) : last_report p (t1 ++ t2) = some v := by
  unfold last_report at h ⊢
  rw [List.filterMap_append]
  generalize List.filterMap _ t2 = l2 at h ⊢
  generalize List.filterMap _ t1 = l1
  cases l2 with
  | nil => simp at h
  | cons x xs =>
    rw [List.getLast?_append_of_ne_nil _ (List.cons_ne_nil x xs)]
    exact h

/-- The string left in the buffer by four digit keys pressed from index 0. -/
theorem four_digits (s : State) (d1 d2 d3 d4 : Char)
    (h1 : '0' ≤ d1 ∧ d1 ≤ '9') (h2 : '0' ≤ d2 ∧ d2 ≤ '9')
    (h3 : '0' ≤ d3 ∧ d3 ≤ '9') (h4 : '0' ≤ d4 ∧ d4 ≤ '9')
    (hidx : s.password_index = 0) :
    run_keys s [d1, d2, d3, d4] =
      { s with password_buffer := ⟨d1, d2, d3, d4, NUL⟩, password_index := 4 } := by
  obtain ⟨sa, sd, ⟨b0, b1, b2, b3, b4⟩, idx, rest⟩ := s
  simp only at hidx
  subst hidx
  simp [run_keys, keypad_key, keypad_dispatch_digit, h1, h2, h3, h4, Buf5.set]

theorem cstr_four (d1 d2 d3 d4 : Char) (h1 : d1 ≠ NUL) (h2 : d2 ≠ NUL) (h3 : d3 ≠ NUL)
    (h4 : d4 ≠ NUL) : (⟨d1, d2, d3, d4, NUL⟩ : Buf5).cstr = [d1, d2, d3, d4] := by
  simp [Buf5.cstr, Buf5.toList, List.takeWhile_cons, h1, h2, h3, h4]

/-- C5: from a state with an empty buffer whose `master_password` is the four digits
d1 d2 d3 d4, the keys d1, d2, d3, d4, '#' negate `system_armed`, leave the buffer
empty, and the security status last written is "Door Locked" when the new
`system_armed` is true and "Door Unlocked" otherwise. -/
theorem C5_correct_password_toggles (s : State) (d1 d2 d3 d4 : Char)
    (h1 : '0' ≤ d1 ∧ d1 ≤ '9') (h2 : '0' ≤ d2 ∧ d2 ≤ '9')
    (h3 : '0' ≤ d3 ∧ d3 ≤ '9') (h4 : '0' ≤ d4 ∧ d4 ≤ '9')
    (hidx : s.password_index = 0) (_hempty : s.password_buffer.cstr = [])
    (hmaster : s.master_password = String.mk [d1, d2, d3, d4]) :
    (run_keys s [d1, d2, d3, d4, '#']).system_armed = (!s.system_armed) ∧
      (run_keys s [d1, d2, d3, d4, '#']).password_index = 0 ∧
      (run_keys s [d1, d2, d3, d4, '#']).password_buffer.cstr = [] ∧
      last_report param_sec_status (keys_trace s [d1, d2, d3, d4, '#']) =
        some (Val.s (if (run_keys s [d1, d2, d3, d4, '#']).system_armed then "Door Locked"
          else "Door Unlocked")) := by
  have hs4 := four_digits s d1 d2 d3 d4 h1 h2 h3 h4 hidx
  have hcmp : strcmp_eq (⟨d1, d2, d3, d4, NUL⟩ : Buf5) s.master_password = true := by
    simp [strcmp_eq, hmaster, cstr_four d1 d2 d3 d4 (digit_ne_NUL d1 h1.1)
      (digit_ne_NUL d2 h2.1) (digit_ne_NUL d3 h3.1) (digit_ne_NUL d4 h4.1)]
  have hrun : run_keys s [d1, d2, d3, d4, '#']
      = (keypad_key (run_keys s [d1, d2, d3, d4]) '#').1 := rfl
  have htrace : keys_trace s [d1, d2, d3, d4, '#']
      = keys_trace s [d1, d2, d3, d4] ++ (keypad_key (run_keys s [d1, d2, d3, d4]) '#').2 := by
    have := keys_trace_append [d1, d2, d3, d4] s ['#']
    simpa [keys_trace] using this
  rw [htrace, hrun, hs4]
  refine ⟨?_, ?_, ?_, ?_⟩
  · simp [keypad_key, keypad_dispatch, hcmp]
  · simp [keypad_key, keypad_dispatch, hcmp]
  · simp [keypad_key, keypad_dispatch, hcmp, Buf5.cstr, Buf5.toList, Buf5.zero]
  · apply last_report_append
    cases ha : s.system_armed <;>
      simp [keypad_key, keypad_dispatch, hcmp, ha, last_report, send_alert, param_sec_status,
        param_alert, param_home_sec]

theorem C5_correct_password_toggles_witness :
    (run_keys State.init ['2', '5', '8', '0', '#']).system_armed = (!State.init.system_armed) ∧
      (run_keys State.init ['2', '5', '8', '0', '#']).password_index = 0 ∧
      (run_keys State.init ['2', '5', '8', '0', '#']).password_buffer.cstr = [] ∧
      last_report param_sec_status (keys_trace State.init ['2', '5', '8', '0', '#']) =
        some (Val.s (if (run_keys State.init ['2', '5', '8', '0', '#']).system_armed
          then "Door Locked" else "Door Unlocked")) :=
  C5_correct_password_toggles State.init '2' '5' '8' '0' (by decide) (by decide) (by decide)
    (by decide) rfl (by decide) rfl

/-- C6: when the string in the buffer differs from `master_password`, the key '#'
changes nothing but the buffer, which it resets to empty; it writes the security
status "Wrong Password", plays the error sound and raises the alert
"Invalid Password Entered". The key '#' changes `system_armed` exactly when the
string in the buffer equals `master_password`. -/
theorem C6_wrong_password (s : State) :
    (s.password_buffer.cstr ≠ s.master_password.toList →
        (keypad_key s '#').1 = { s with password_index := 0, password_buffer := Buf5.zero } ∧
          (keypad_key s '#').2 =
            [Action.beep 50, Action.xSemaphoreTake,
             Action.report param_sec_status (Val.s "Wrong Password"),
             Action.buzzer_error_sound,
             Action.report param_alert (Val.s "Invalid Password Entered"),
             Action.raise_alert "Invalid Password Entered",
             Action.xSemaphoreGive, Action.wait_key_release]) ∧
      ((keypad_key s '#').1.system_armed ≠ s.system_armed ↔
        s.password_buffer.cstr = s.master_password.toList) := by
  by_cases h : s.password_buffer.cstr = s.master_password.toList
  · have hcmp : strcmp_eq s.password_buffer s.master_password = true := by
      simp [strcmp_eq, h]
    refine ⟨fun hne => absurd h hne, ?_⟩
    simp [keypad_key, keypad_dispatch, hcmp, h]
  · have hcmp : strcmp_eq s.password_buffer s.master_password = false := by
      simpa [strcmp_eq] using h
    refine ⟨fun _ => ?_, ?_⟩
    · simp [keypad_key, keypad_dispatch, hcmp, send_alert]
    · have hsame : (keypad_key s '#').1.system_armed = s.system_armed := by
        simp [keypad_key, keypad_dispatch, hcmp]
      exact ⟨fun hne => absurd hsame hne, fun heq => absurd heq h⟩

theorem C6_wrong_password_witness :
    (keypad_key (run_keys State.init ['1', '2', '3', '4']) '#').1
        = { run_keys State.init ['1', '2', '3', '4'] with
            password_index := 0, password_buffer := Buf5.zero } ∧
      (keypad_key (run_keys State.init ['1', '2', '3', '4']) '#').2 =
        [Action.beep 50, Action.xSemaphoreTake,
         Action.report param_sec_status (Val.s "Wrong Password"),
         Action.buzzer_error_sound,
         Action.report param_alert (Val.s "Invalid Password Entered"),
         Action.raise_alert "Invalid Password Entered",
         Action.xSemaphoreGive, Action.wait_key_release] :=
  (C6_wrong_password (run_keys State.init ['1', '2', '3', '4'])).1 (by decide)

/-- C7: with `fan_speed` s in 0..5, one key 'A' gives speed (s+1) mod 6 and power equal
to (new speed > 0); from speed 0, the speeds and powers after one to six presses of
'A' are (1,on), (2,on), (3,on), (4,on), (5,on), (0,off). -/
theorem C7_fan_cycle (s : State) (hlo : 0 ≤ s.fan_speed) (hhi : s.fan_speed ≤ 5) :
    (keypad_key s 'A').1.fan_speed = (s.fan_speed + 1) % 6 ∧
      (keypad_key s 'A').1.fan_state = decide ((keypad_key s 'A').1.fan_speed > 0) ∧
      (s.fan_speed = 0 →
        (List.range 6).map (fun n =>
            ((run_keys s (List.replicate (n + 1) 'A')).fan_speed,
              (run_keys s (List.replicate (n + 1) 'A')).fan_state))
          = [(1, true), (2, true), (3, true), (4, true), (5, true), (0, false)]) := by
  have hA := keyA_fan s
  have hw : wrap32 (s.fan_speed + 1) = s.fan_speed + 1 := wrap32_id _ (by omega) (by omega)
  refine ⟨?_, ?_, ?_⟩
  · rw [hA.1, hw]
    split_ifs <;> omega
  · rw [hA.2, hA.1]
  · intro hz
    obtain ⟨sa, sd, buf, idx, mp, fs, sp, rest⟩ := s
    simp only at hz
    subst hz
    simp [run_keys, List.range, List.range.loop, List.replicate, keypad_key, keypad_dispatch,
      wrap32]

theorem C7_fan_cycle_witness :
    (List.range 6).map (fun n =>
        ((run_keys State.init (List.replicate (n + 1) 'A')).fan_speed,
          (run_keys State.init (List.replicate (n + 1) 'A')).fan_state))
      = [(1, true), (2, true), (3, true), (4, true), (5, true), (0, false)] :=
  (C7_fan_cycle State.init (by decide) (by decide)).2.2 rfl

/-- C8: from any state, remote Fan Power(false) then Fan Power(true) ends with the fan
on at speed 1; so does Fan Speed(3), Power(false), Power(true), which ends with
speed 1 and not 3. -/
theorem C8_power_cycle_resets_speed (s : State) :
    (run_fan s [FanCmd.power false, FanCmd.power true]).fan_state = true ∧
      (run_fan s [FanCmd.power false, FanCmd.power true]).fan_speed = 1 ∧
      (run_fan s [FanCmd.speed 3, FanCmd.power false, FanCmd.power true]).fan_state = true ∧
      (run_fan s [FanCmd.speed 3, FanCmd.power false, FanCmd.power true]).fan_speed = 1 ∧
      (run_fan s [FanCmd.speed 3, FanCmd.power false, FanCmd.power true]).fan_speed ≠ 3 := by
  have key : ∀ t : State,
      (run_fan t [FanCmd.power false, FanCmd.power true]).fan_state = true ∧
        (run_fan t [FanCmd.power false, FanCmd.power true]).fan_speed = 1 := by
    intro t
    have h1 := power_fan t false
    have h2 := power_fan (write_cb t "Fan" "Power" (Val.b false)).1 true
    simp only [run_fan, List.foldl, FanCmd.apply]
    rw [h2.1, h2.2, h1.2]
    simp
  have h3 : run_fan s [FanCmd.speed 3, FanCmd.power false, FanCmd.power true]
      = run_fan (FanCmd.apply s (FanCmd.speed 3)) [FanCmd.power false, FanCmd.power true] := rfl
  rw [h3]
  refine ⟨(key s).1, (key s).2, (key _).1, (key _).2, ?_⟩
  rw [(key _).2]
  decide

/-- C9: from any state, a second consecutive remote Light Power(true) leaves the state
reached by the first unchanged, plays neither the light sound nor the device-on
indication, and still writes the status text "Light On"; likewise for the TV with
"TV On" and the plug with "Plug On". -/
theorem C9_power_on_idempotent (s : State) :
    ((write_cb (write_cb s "Light" "Power" (Val.b true)).1 "Light" "Power" (Val.b true)).1
        = (write_cb s "Light" "Power" (Val.b true)).1 ∧
      (write_cb (write_cb s "Light" "Power" (Val.b true)).1 "Light" "Power" (Val.b true)).2
        = [Action.report param_light_status (Val.s "Light On"),
           Action.report param_home_light (Val.s "On"),
           Action.report param_alert (Val.s "Light Turned ON (App)"),
           Action.raise_alert "Light Turned ON (App)",
           Action.report ⟨"Light", "Power"⟩ (Val.b true)]) ∧
    ((write_cb (write_cb s "TV" "Power" (Val.b true)).1 "TV" "Power" (Val.b true)).1
        = (write_cb s "TV" "Power" (Val.b true)).1 ∧
      (write_cb (write_cb s "TV" "Power" (Val.b true)).1 "TV" "Power" (Val.b true)).2
        = [Action.report param_tv_status (Val.s "TV On"),
           Action.report param_home_tv (Val.s "On"),
           Action.report param_alert (Val.s "TV Turned ON (App)"),
           Action.raise_alert "TV Turned ON (App)",
           Action.report ⟨"TV", "Power"⟩ (Val.b true)]) ∧
    ((write_cb (write_cb s "Plug" "Power" (Val.b true)).1 "Plug" "Power" (Val.b true)).1
        = (write_cb s "Plug" "Power" (Val.b true)).1 ∧
      (write_cb (write_cb s "Plug" "Power" (Val.b true)).1 "Plug" "Power" (Val.b true)).2
        = [Action.report param_plug_status (Val.s "Plug On"),
           Action.report param_home_plug (Val.s "On"),
           Action.report param_alert (Val.s "Plug Turned ON (App)"),
           Action.raise_alert "Plug Turned ON (App)",
           Action.report ⟨"Plug", "Power"⟩ (Val.b true)]) := by
  refine ⟨?_, ?_, ?_⟩
  · cases h : s.light_state <;>
      simp [write_cb, write_power, write_light_power, Val.getB, send_alert, h]
  · cases h : s.tv_state <;>
      simp [write_cb, write_power, write_tv_power, Val.getB, send_alert, h]
  · cases h : s.plug_state <;>
      simp [write_cb, write_power, write_plug_power, Val.getB, send_alert, h]

/-! ### The remote password command -/

theorem utf8ByteSize_go_ascii (l : List Char) (h : ∀ c ∈ l, c.val < 128) :
    String.utf8ByteSize.go l = l.length := by
  induction l with
  | nil => rfl
  | cons c cs ih =>
    have hc : c.val < 128 := h c (List.mem_cons_self c cs)
    have hcs : ∀ d ∈ cs, d.val < 128 := fun d hd => h d (List.mem_cons_of_mem c hd)
    have h1 : c.utf8Size = 1 := by
      have hle : c.val ≤ 127 := by
        have : c.val.toNat < 128 := hc
        show c.val.toNat ≤ 127
        omega
      simp [Char.utf8Size, hle]
    simp only [String.utf8ByteSize.go, ih hcs, h1, List.length_cons]

/-- C11: a remote "Set Password" carrying a string of 1 to 15 bytes makes it the
`master_password`, raises the alert "Security Password Changed via App" and reports
"Updated"; an empty string or one of 16 bytes or more changes no state, raises no
alert and reports "Invalid". Length is what `strlen` counts; on a string of ASCII
characters it is the number of characters. -/
theorem C11_set_password (s : State) (device_name : String) (str : String) :
    (1 ≤ str.utf8ByteSize ∧ str.utf8ByteSize ≤ 15 →
        (write_cb s device_name "Set Password" (Val.s str)).1
            = { s with master_password := str } ∧
          (write_cb s device_name "Set Password" (Val.s str)).2
            = [Action.nvs_store "master_pw" str,
               Action.report param_alert (Val.s "Security Password Changed via App"),
               Action.raise_alert "Security Password Changed via App",
               Action.report ⟨device_name, "Set Password"⟩ (Val.s "Updated")]) ∧
      (¬ (1 ≤ str.utf8ByteSize ∧ str.utf8ByteSize ≤ 15) →
        write_cb s device_name "Set Password" (Val.s str)
          = (s, [Action.report ⟨device_name, "Set Password"⟩ (Val.s "Invalid")])) ∧
      ((∀ c ∈ str.toList, c.val < 128) → str.utf8ByteSize = str.length) := by
  refine ⟨?_, ?_, ?_⟩
  · intro h
    have hc : 0 < str.utf8ByteSize ∧ str.utf8ByteSize < 16 := by omega
    simp [write_cb, Val.getS, hc, send_alert]
  · intro h
    have hc : ¬ (0 < str.utf8ByteSize ∧ str.utf8ByteSize < 16) := by omega
    simp only [write_cb, Val.getS, hc, if_true, if_false]
  · intro h
    exact utf8ByteSize_go_ascii str.data h

theorem C11_set_password_witness :
    (write_cb State.init "Security" "Set Password" (Val.s "open-sesame")).1
        = { State.init with master_password := "open-sesame" } ∧
      (write_cb State.init "Security" "Set Password" (Val.s "open-sesame")).2
        = [Action.nvs_store "master_pw" "open-sesame",
           Action.report param_alert (Val.s "Security Password Changed via App"),
           Action.raise_alert "Security Password Changed via App",
           Action.report ⟨"Security", "Set Password"⟩ (Val.s "Updated")] :=
  (C11_set_password State.init "Security" "open-sesame").1 (by decide)


/-! ### Status texts and alerts of the device commands -/

/-- C12, as stated, fails: the key 'B' pressed in the initial state writes "Light On"
to the Light status parameter and "On" to the Home summary of the light. -/
theorem C12_counterexample :
    last_report param_light_status (keypad_key State.init 'B').2 = some (Val.s "Light On") ∧
      last_report param_home_light (keypad_key State.init 'B').2 = some (Val.s "On") ∧
      last_report param_light_status (keypad_key State.init 'B').2
        ≠ last_report param_home_light (keypad_key State.init 'B').2 := by
  decide

/-- C12, amended: every fan command (key 'A', remote Fan Speed, remote Fan Power)
writes one and the same text, derived from the new speed, to the Fan status parameter
and to the Home summary of the fan. A light, TV or plug command (key 'B', 'C', 'D' or
remote Power) writes "On" or "Off" to the Home summary and that text after the device
name and a blank to the status parameter of the device. -/
theorem C12_status_texts (s : State) (n : Int) (p : Bool) :
    (last_report param_fan_status (keypad_key s 'A').2
        = some (Val.s (fan_status_text (keypad_key s 'A').1.fan_speed)) ∧
      last_report param_home_fan (keypad_key s 'A').2
        = some (Val.s (fan_status_text (keypad_key s 'A').1.fan_speed))) ∧
    (last_report param_fan_status (write_cb s "Fan" "Speed" (Val.i n)).2
        = some (Val.s (fan_status_text n)) ∧
      last_report param_home_fan (write_cb s "Fan" "Speed" (Val.i n)).2
        = some (Val.s (fan_status_text n))) ∧
    (last_report param_fan_status (write_cb s "Fan" "Power" (Val.b p)).2
        = some (Val.s (fan_status_text (write_cb s "Fan" "Power" (Val.b p)).1.fan_speed)) ∧
      last_report param_home_fan (write_cb s "Fan" "Power" (Val.b p)).2
        = some (Val.s (fan_status_text (write_cb s "Fan" "Power" (Val.b p)).1.fan_speed))) ∧
    (last_report param_light_status (keypad_key s 'B').2
        = some (Val.s ("Light " ++ if (keypad_key s 'B').1.light_state then "On" else "Off")) ∧
      last_report param_home_light (keypad_key s 'B').2
        = some (Val.s (if (keypad_key s 'B').1.light_state then "On" else "Off"))) ∧
    (last_report param_tv_status (keypad_key s 'C').2
        = some (Val.s ("TV " ++ if (keypad_key s 'C').1.tv_state then "On" else "Off")) ∧
      last_report param_home_tv (keypad_key s 'C').2
        = some (Val.s (if (keypad_key s 'C').1.tv_state then "On" else "Off"))) ∧
    (last_report param_plug_status (keypad_key s 'D').2
        = some (Val.s ("Plug " ++ if (keypad_key s 'D').1.plug_state then "On" else "Off")) ∧
      last_report param_home_plug (keypad_key s 'D').2
        = some (Val.s (if (keypad_key s 'D').1.plug_state then "On" else "Off"))) ∧
    (last_report param_light_status (write_cb s "Light" "Power" (Val.b p)).2
        = some (Val.s ("Light " ++ if p then "On" else "Off")) ∧
      last_report param_home_light (write_cb s "Light" "Power" (Val.b p)).2
        = some (Val.s (if p then "On" else "Off"))) ∧
    (last_report param_tv_status (write_cb s "TV" "Power" (Val.b p)).2
        = some (Val.s ("TV " ++ if p then "On" else "Off")) ∧
      last_report param_home_tv (write_cb s "TV" "Power" (Val.b p)).2
        = some (Val.s (if p then "On" else "Off"))) ∧
    (last_report param_plug_status (write_cb s "Plug" "Power" (Val.b p)).2
        = some (Val.s ("Plug " ++ if p then "On" else "Off")) ∧
      last_report param_home_plug (write_cb s "Plug" "Power" (Val.b p)).2
        = some (Val.s (if p then "On" else "Off"))) := by
  refine ⟨?_, ?_, ?_, ?_, ?_, ?_, ?_, ?_, ?_⟩
  · constructor <;>
      simp [keypad_key, keypad_dispatch, last_report, send_alert, param_fan_status,
        param_home_fan, param_fan_power, param_fan_speed, param_alert]
  · constructor <;>
      simp [write_cb, Val.getI, last_report, send_alert, param_fan_status,
        param_home_fan, param_fan_power, param_fan_speed, param_alert]
  · constructor <;> cases p <;> cases h : s.fan_state <;>
      simp [write_cb, write_power, write_fan_power, Val.getB, h, last_report,
        send_alert, param_fan_status, param_home_fan, param_fan_power, param_fan_speed,
        param_alert]
  · constructor <;> cases h : s.light_state <;>
      simp [keypad_key, keypad_dispatch, h, last_report, send_alert,
        param_light_status, param_home_light, param_light_power, param_alert]
  · constructor <;> cases h : s.tv_state <;>
      simp [keypad_key, keypad_dispatch, h, last_report, send_alert,
        param_tv_status, param_home_tv, param_tv_power, param_alert]
  · constructor <;> cases h : s.plug_state <;>
      simp [keypad_key, keypad_dispatch, h, last_report, send_alert,
        param_plug_status, param_home_plug, param_plug_power, param_alert]
  · constructor <;> cases p <;> cases h : s.light_state <;>
      simp [write_cb, write_power, write_light_power, Val.getB, h, last_report, send_alert,
        param_light_status, param_home_light, param_light_power, param_alert]
  · constructor <;> cases p <;> cases h : s.tv_state <;>
      simp [write_cb, write_power, write_tv_power, Val.getB, h, last_report, send_alert,
        param_tv_status, param_home_tv, param_tv_power, param_alert]
  · constructor <;> cases p <;> cases h : s.plug_state <;>
      simp [write_cb, write_power, write_plug_power, Val.getB, h, last_report, send_alert,
        param_plug_status, param_home_plug, param_plug_power, param_alert]


/-- C13, as stated, fails: with the fan already on, a remote Fan Power(true) raises the
alert "Fan Turned ON (App)" again. -/
theorem C13_counterexample :
    (write_cb State.init "Fan" "Power" (Val.b true)).1.fan_state = true ∧
      "Fan Turned ON (App)" ∈
        alerts (write_cb (write_cb State.init "Fan" "Power" (Val.b true)).1
          "Fan" "Power" (Val.b true)).2 := by
  decide

/-- C13, amended: with the fan on at a non-zero speed, a remote Fan Power(true) leaves
the state unchanged, re-writes the fan speed and the derived fan status, plays the
speed cue, does not run the device-on indication and does raise the alert
"Fan Turned ON (App)". A Fan Power command runs the device-on indication exactly when
power goes from false to true, and raises "Fan Turned ON (App)" exactly when it
carries true. -/
theorem C13_fan_power_on_again (s : State) (p : Bool) :
    (s.fan_state = true → s.fan_speed ≠ 0 →
        (write_cb s "Fan" "Power" (Val.b true)).1 = s ∧
        (write_cb s "Fan" "Power" (Val.b true)).2
          = [Action.report param_fan_speed (Val.i s.fan_speed),
             Action.report param_fan_status (Val.s (fan_status_text s.fan_speed)),
             Action.report param_home_fan (Val.s (fan_status_text s.fan_speed)),
             Action.buzzer_fan_speed_sound s.fan_speed,
             Action.report param_alert (Val.s "Fan Turned ON (App)"),
             Action.raise_alert "Fan Turned ON (App)",
             Action.report ⟨"Fan", "Power"⟩ (Val.b true)]) ∧
      (Action.indicate_device_on ∈ (write_cb s "Fan" "Power" (Val.b p)).2 ↔
        (s.fan_state = false ∧ p = true)) ∧
      ("Fan Turned ON (App)" ∈ alerts (write_cb s "Fan" "Power" (Val.b p)).2 ↔ p = true) := by
  refine ⟨?_, ?_, ?_⟩
  · intro hon hsp
    obtain ⟨sa, sd, buf, idx, mp, fs, sp, rest⟩ := s
    simp only at hon hsp
    subst hon
    simp [write_cb, write_power, write_fan_power, Val.getB, send_alert, hsp]
  · cases p <;> cases h : s.fan_state <;>
      simp [write_cb, write_power, write_fan_power, Val.getB, send_alert, h]
  · cases p <;> cases h : s.fan_state <;>
      simp [write_cb, write_power, write_fan_power, Val.getB, send_alert, h, alerts]

theorem C13_fan_power_on_again_witness :
    (write_cb (write_cb State.init "Fan" "Speed" (Val.i 3)).1 "Fan" "Power" (Val.b true)).1
        = (write_cb State.init "Fan" "Speed" (Val.i 3)).1 ∧
      (write_cb (write_cb State.init "Fan" "Speed" (Val.i 3)).1 "Fan" "Power" (Val.b true)).2
        = [Action.report param_fan_speed (Val.i 3),
           Action.report param_fan_status (Val.s (fan_status_text 3)),
           Action.report param_home_fan (Val.s (fan_status_text 3)),
           Action.buzzer_fan_speed_sound 3,
           Action.report param_alert (Val.s "Fan Turned ON (App)"),
           Action.raise_alert "Fan Turned ON (App)",
           Action.report ⟨"Fan", "Power"⟩ (Val.b true)] :=
  (C13_fan_power_on_again (write_cb State.init "Fan" "Speed" (Val.i 3)).1 true).1
    (by decide) (by decide)


/-! ### The keypad path against the remote path -/

/-- C14, as stated, fails: in the initial state the key 'B' plays the light sound and
the device-on indication, while the remote Light Power(true) plays these and then the
fan sound. -/
theorem C14_counterexample :
    cues (keypad_key State.init 'B').2
        = [Action.buzzer_light_sound, Action.indicate_device_on] ∧
      cues (write_cb State.init "Light" "Power" (Val.b (!State.init.light_state))).2
        = [Action.buzzer_light_sound, Action.indicate_device_on, Action.buzzer_fan_sound] ∧
      cues (keypad_key State.init 'B').2
        ≠ cues (write_cb State.init "Light" "Power" (Val.b (!State.init.light_state))).2 := by
  decide

/-- C14, amended: the key 'B', 'C' or 'D' gives the same next state, the same device
status text and the same Home summary text as the remote Power command for that device
carrying the negation of its current power, and the one alert of each path is the same
text up to the source tag "(Keypad)" or "(App)"; with `fan_speed` s in 0..5 the key 'A'
gives the same next state and the same two status texts as the remote Fan Speed command
carrying (s+1) mod 6. -/
theorem C14_keypad_matches_remote (s : State) :
    ((keypad_key s 'B').1 = (write_cb s "Light" "Power" (Val.b (!s.light_state))).1 ∧
      last_report param_light_status (keypad_key s 'B').2
        = last_report param_light_status
            (write_cb s "Light" "Power" (Val.b (!s.light_state))).2 ∧
      last_report param_home_light (keypad_key s 'B').2
        = last_report param_home_light
            (write_cb s "Light" "Power" (Val.b (!s.light_state))).2 ∧
      ∃ base : String,
        alerts (keypad_key s 'B').2 = [base ++ "(Keypad)"] ∧
        alerts (write_cb s "Light" "Power" (Val.b (!s.light_state))).2 = [base ++ "(App)"]) ∧
    ((keypad_key s 'C').1 = (write_cb s "TV" "Power" (Val.b (!s.tv_state))).1 ∧
      last_report param_tv_status (keypad_key s 'C').2
        = last_report param_tv_status (write_cb s "TV" "Power" (Val.b (!s.tv_state))).2 ∧
      last_report param_home_tv (keypad_key s 'C').2
        = last_report param_home_tv (write_cb s "TV" "Power" (Val.b (!s.tv_state))).2 ∧
      ∃ base : String,
        alerts (keypad_key s 'C').2 = [base ++ "(Keypad)"] ∧
        alerts (write_cb s "TV" "Power" (Val.b (!s.tv_state))).2 = [base ++ "(App)"]) ∧
    ((keypad_key s 'D').1 = (write_cb s "Plug" "Power" (Val.b (!s.plug_state))).1 ∧
      last_report param_plug_status (keypad_key s 'D').2
        = last_report param_plug_status
            (write_cb s "Plug" "Power" (Val.b (!s.plug_state))).2 ∧
      last_report param_home_plug (keypad_key s 'D').2
        = last_report param_home_plug
            (write_cb s "Plug" "Power" (Val.b (!s.plug_state))).2 ∧
      ∃ base : String,
        alerts (keypad_key s 'D').2 = [base ++ "(Keypad)"] ∧
        alerts (write_cb s "Plug" "Power" (Val.b (!s.plug_state))).2 = [base ++ "(App)"]) ∧
    (0 ≤ s.fan_speed → s.fan_speed ≤ 5 →
      (keypad_key s 'A').1 = (write_cb s "Fan" "Speed" (Val.i ((s.fan_speed + 1) % 6))).1 ∧
      last_report param_fan_status (keypad_key s 'A').2
        = last_report param_fan_status
            (write_cb s "Fan" "Speed" (Val.i ((s.fan_speed + 1) % 6))).2 ∧
      last_report param_home_fan (keypad_key s 'A').2
        = last_report param_home_fan
            (write_cb s "Fan" "Speed" (Val.i ((s.fan_speed + 1) % 6))).2) := by
  refine ⟨?_, ?_, ?_, ?_⟩
  · cases h : s.light_state
    · refine ⟨?_, ?_, ?_, "Light Turned ON ", ?_, ?_⟩ <;>
        simp [keypad_key, keypad_dispatch, write_cb, write_power, write_light_power, Val.getB,
          h, last_report, send_alert, alerts, param_light_status, param_home_light,
          param_light_power, param_alert]
    · refine ⟨?_, ?_, ?_, "Light Turned OFF ", ?_, ?_⟩ <;>
        simp [keypad_key, keypad_dispatch, write_cb, write_power, write_light_power, Val.getB,
          h, last_report, send_alert, alerts, param_light_status, param_home_light,
          param_light_power, param_alert]
  · cases h : s.tv_state
    · refine ⟨?_, ?_, ?_, "TV Turned ON ", ?_, ?_⟩ <;>
        simp [keypad_key, keypad_dispatch, write_cb, write_power, write_tv_power, Val.getB,
          h, last_report, send_alert, alerts, param_tv_status, param_home_tv,
          param_tv_power, param_alert]
    · refine ⟨?_, ?_, ?_, "TV Turned OFF ", ?_, ?_⟩ <;>
        simp [keypad_key, keypad_dispatch, write_cb, write_power, write_tv_power, Val.getB,
          h, last_report, send_alert, alerts, param_tv_status, param_home_tv,
          param_tv_power, param_alert]
  · cases h : s.plug_state
    · refine ⟨?_, ?_, ?_, "Plug Turned ON ", ?_, ?_⟩ <;>
        simp [keypad_key, keypad_dispatch, write_cb, write_power, write_plug_power, Val.getB,
          h, last_report, send_alert, alerts, param_plug_status, param_home_plug,
          param_plug_power, param_alert]
    · refine ⟨?_, ?_, ?_, "Plug Turned OFF ", ?_, ?_⟩ <;>
        simp [keypad_key, keypad_dispatch, write_cb, write_power, write_plug_power, Val.getB,
          h, last_report, send_alert, alerts, param_plug_status, param_home_plug,
          param_plug_power, param_alert]
  · intro hlo hhi
    have hw : wrap32 (s.fan_speed + 1) = s.fan_speed + 1 := wrap32_id _ (by omega) (by omega)
    have hmod : (if 5 < s.fan_speed + 1 then 0 else s.fan_speed + 1) = (s.fan_speed + 1) % 6 := by
      split_ifs <;> omega
    refine ⟨?_, ?_, ?_⟩ <;>
      simp [keypad_key, keypad_dispatch, write_cb, Val.getI, hw, hmod, last_report, send_alert,
        param_fan_status, param_home_fan, param_fan_power, param_fan_speed, param_alert]

theorem C14_keypad_matches_remote_witness :
    (keypad_key State.init 'A').1
        = (write_cb State.init "Fan" "Speed" (Val.i ((State.init.fan_speed + 1) % 6))).1 ∧
      last_report param_fan_status (keypad_key State.init 'A').2
        = last_report param_fan_status
            (write_cb State.init "Fan" "Speed" (Val.i ((State.init.fan_speed + 1) % 6))).2 ∧
      last_report param_home_fan (keypad_key State.init 'A').2
        = last_report param_home_fan
            (write_cb State.init "Fan" "Speed" (Val.i ((State.init.fan_speed + 1) % 6))).2 :=
  (C14_keypad_matches_remote State.init).2.2.2 (by decide) (by decide)


/-! ### Lock discipline -/

theorem write_power_no_lock (s : State) (device_name : String) (state : Bool) :
    Action.xSemaphoreTake ∉ (write_power s device_name state).2.2 ∧
      Action.xSemaphoreGive ∉ (write_power s device_name state).2.2 := by
  simp only [write_power, write_fan_power, write_light_power, write_tv_power, write_plug_power]
  split_ifs <;> constructor <;> simp [send_alert]

theorem write_cb_no_lock (s : State) (device_name param_name : String) (val : Val) :
    Action.xSemaphoreTake ∉ (write_cb s device_name param_name val).2 ∧
      Action.xSemaphoreGive ∉ (write_cb s device_name param_name val).2 := by
  have hp := write_power_no_lock s device_name val.getB
  simp only [write_cb]
  split_ifs <;> constructor <;> simp [send_alert, hp.1, hp.2]

theorem keypad_dispatch_no_lock (s : State) (key : Char) :
    Action.xSemaphoreTake ∉ (keypad_dispatch s key).2 ∧
      Action.xSemaphoreGive ∉ (keypad_dispatch s key).2 := by
  simp only [keypad_dispatch]
  split_ifs <;> constructor <;> simp [send_alert]

theorem sensor_door_no_lock (s : State) (inp : TickInput) :
    Action.xSemaphoreTake ∉ (sensor_door s inp).2 ∧
      Action.xSemaphoreGive ∉ (sensor_door s inp).2 := by
  simp only [sensor_door]
  split_ifs <;> constructor <;> simp [send_alert]

theorem sensor_leds_no_lock (s : State) (b : Bool) :
    Action.xSemaphoreTake ∉ sensor_leds s b ∧ Action.xSemaphoreGive ∉ sensor_leds s b := by
  simp only [sensor_leds]
  split_ifs <;> constructor <;> simp

/-- C15, the remote handler: `write_cb` never takes or gives the lock, for any command,
although it writes the state (Fan Power(true) in the initial state turns the fan on);
the key handler and the monitor tick do take it. -/
theorem C15_write_cb_takes_no_lock (s : State) (device_name param_name : String) (val : Val)
    (key : Char) (inp : TickInput) :
    Action.xSemaphoreTake ∉ (write_cb s device_name param_name val).2 ∧
      Action.xSemaphoreGive ∉ (write_cb s device_name param_name val).2 ∧
      (write_cb State.init "Fan" "Power" (Val.b true)).1.fan_state = true ∧
      (write_cb State.init "Fan" "Power" (Val.b true)).1 ≠ State.init ∧
      Action.xSemaphoreTake ∈ (keypad_key s key).2 ∧
      Action.xSemaphoreTake ∈ (sensor_tick s inp).2 := by
  refine ⟨(write_cb_no_lock s device_name param_name val).1,
    (write_cb_no_lock s device_name param_name val).2, by decide, by decide, ?_, ?_⟩
  · simp [keypad_key]
  · simp [sensor_tick]


theorem takeWhile_bne_append (x : Action) (l rest : List Action) (h : x ∉ l) :
    (l ++ x :: rest).takeWhile (fun a => a != x) = l := by
  induction l with
  | nil => simp [List.takeWhile_cons]
  | cons y ys ih =>
    have hy : y ≠ x := fun e => h (e ▸ List.mem_cons_self y ys)
    have hys : x ∉ ys := fun hm => h (List.mem_cons_of_mem y hm)
    simp [List.takeWhile_cons, hy, ih hys]

theorem dropWhile_bne_append (x : Action) (l rest : List Action) (h : x ∉ l) :
    (l ++ x :: rest).dropWhile (fun a => a != x) = x :: rest := by
  induction l with
  | nil => simp [List.dropWhile_cons]
  | cons y ys ih =>
    have hy : y ≠ x := fun e => h (e ▸ List.mem_cons_self y ys)
    have hys : x ∉ ys := fun hm => h (List.mem_cons_of_mem y hm)
    simp [List.dropWhile_cons, hy, ih hys]

/-- C16, as stated, fails: in the initial state the key 'B' plays the light sound, and a
monitor tick waits for the echo, between the lock acquire and the lock release. -/
theorem C16_counterexample :
    (Action.buzzer_light_sound ∈ locked_section (keypad_key State.init 'B').2 ∧
        Action.buzzer_light_sound.is_side_effect = true) ∧
      (Action.get_distance_cm ∈ locked_section (sensor_tick State.init ⟨-1, 0, 0, false⟩).2 ∧
        Action.get_distance_cm.is_side_effect = true) := by
  decide

/-- C16, amended: in the trace of a key press only the key beep comes before the lock
acquire and only the wait for the key release comes after the lock release; every
sound, indication, alert and delay of the key's dispatch lies between the two. In the
trace of a monitor tick nothing comes before the acquire or after the release; the
echo wait and every sound and alert of the door monitor lie between the two. -/
theorem C16_effects_inside_lock (s : State) (key : Char) (inp : TickInput) :
    (before_acquire (keypad_key s key).2 = [Action.beep 50] ∧
      locked_section (keypad_key s key).2 = (keypad_dispatch s key).2 ∧
      after_release (keypad_key s key).2 = [Action.wait_key_release]) ∧
    (before_acquire (sensor_tick s inp).2 = [] ∧
      locked_section (sensor_tick s inp).2
        = Action.get_distance_cm ::
            ((sensor_door s inp).2 ++ sensor_leds (sensor_door s inp).1 inp.blinking_active) ∧
      after_release (sensor_tick s inp).2 = []) := by
  have hk := keypad_dispatch_no_lock s key
  have hd := sensor_door_no_lock s inp
  have hl := sensor_leds_no_lock (sensor_door s inp).1 inp.blinking_active
  have hkey : (keypad_key s key).2
      = [Action.beep 50] ++ Action.xSemaphoreTake ::
          ((keypad_dispatch s key).2 ++ Action.xSemaphoreGive :: [Action.wait_key_release]) := by
    simp [keypad_key]
  have hkey2 : (keypad_key s key).2
      = ([Action.beep 50, Action.xSemaphoreTake] ++ (keypad_dispatch s key).2)
          ++ Action.xSemaphoreGive :: [Action.wait_key_release] := by
    simp [keypad_key]
  have htick : (sensor_tick s inp).2
      = [] ++ Action.xSemaphoreTake ::
          ((Action.get_distance_cm ::
            ((sensor_door s inp).2 ++ sensor_leds (sensor_door s inp).1 inp.blinking_active))
            ++ Action.xSemaphoreGive :: []) := by
    simp [sensor_tick]
  have htick2 : (sensor_tick s inp).2
      = ([Action.xSemaphoreTake, Action.get_distance_cm] ++ (sensor_door s inp).2
            ++ sensor_leds (sensor_door s inp).1 inp.blinking_active)
          ++ Action.xSemaphoreGive :: [] := by
    simp [sensor_tick]
  refine ⟨⟨?_, ?_, ?_⟩, ?_, ?_, ?_⟩
  · rw [before_acquire, hkey, takeWhile_bne_append _ _ _ (by simp)]
  · rw [locked_section, hkey, dropWhile_bne_append _ _ _ (by simp), List.drop_one,
      List.tail_cons, takeWhile_bne_append _ _ _ hk.2]
  · rw [after_release, hkey2, dropWhile_bne_append _ _ _ (by simp [hk.2])]
    rfl
  · rw [before_acquire, htick, takeWhile_bne_append _ _ _ (by simp)]
  · rw [locked_section, htick, dropWhile_bne_append _ _ _ (by simp), List.drop_one,
      List.tail_cons, takeWhile_bne_append _ _ _ (by simp [hd.2, hl.2])]
  · rw [after_release, htick2, dropWhile_bne_append _ _ _ (by simp [hd.2, hl.2])]
    rfl

/-! ### Unrecognised remote commands -/

/-- C17, as stated, fails: the remote command (Fan, Status, "x"), whose parameter name
is none of the three handled, reports nothing back. -/
theorem C17_counterexample :
    (write_cb State.init "Fan" "Status" (Val.s "x")).2 = [] ∧
      Action.report ⟨"Fan", "Status"⟩ (Val.s "x")
        ∉ (write_cb State.init "Fan" "Status" (Val.s "x")).2 := by
  decide

/-- C17, amended: a remote command whose parameter name is none of "Power", "Speed" and
"Set Password" changes no state and emits nothing, the received value included; a
"Speed" addressed to a device other than the fan, and a "Power" addressed to a device
other than the fan, the light, the TV and the plug, change no state, raise no alert,
play no cue and report the received value back on the addressed parameter. -/
theorem C17_unrecognised_command (s : State) (device_name param_name : String) (val : Val) :
    (param_name ≠ "Power" → param_name ≠ "Speed" → param_name ≠ "Set Password" →
        write_cb s device_name param_name val = (s, [])) ∧
      (device_name ≠ "Fan" →
        write_cb s device_name "Speed" val
          = (s, [Action.report ⟨device_name, "Speed"⟩ val])) ∧
      (device_name ≠ "Fan" → device_name ≠ "Light" → device_name ≠ "TV" →
        device_name ≠ "Plug" →
        write_cb s device_name "Power" val
          = (s, [Action.report ⟨device_name, "Power"⟩ val])) := by
  refine ⟨?_, ?_, ?_⟩
  · intro h1 h2 h3
    simp [write_cb, h1, h2, h3]
  · intro h
    simp [write_cb, h]
  · intro h1 h2 h3 h4
    simp [write_cb, write_power, h1, h2, h3, h4]

theorem C17_unrecognised_command_witness :
    write_cb State.init "Fan" "Status" (Val.s "x") = (State.init, []) ∧
      write_cb State.init "Light" "Speed" (Val.i 2)
        = (State.init, [Action.report ⟨"Light", "Speed"⟩ (Val.i 2)]) ∧
      write_cb State.init "Home" "Power" (Val.b true)
        = (State.init, [Action.report ⟨"Home", "Power"⟩ (Val.b true)]) :=
  ⟨(C17_unrecognised_command State.init "Fan" "Status" (Val.s "x")).1
      (by decide) (by decide) (by decide),
    (C17_unrecognised_command State.init "Light" "Speed" (Val.i 2)).2.1 (by decide),
    (C17_unrecognised_command State.init "Home" "Power" (Val.b true)).2.2
      (by decide) (by decide) (by decide) (by decide)⟩


/-! ### Closing ticks -/

/-- C18: after a monitor tick from any state, `system_armed` and `door_is_open` are not
both true; a tick that closes the door ends armed and the security status it writes is
"Door Locked"; no tick writes the security status "Door Unlocked". The keypad does
produce a state that is armed with the door open: the password entered while the door
is open. -/
theorem C18_tick_armed_or_closed (s : State) (inp : TickInput) :
    ¬ ((sensor_tick s inp).1.system_armed = true ∧ (sensor_tick s inp).1.door_is_open = true) ∧
      (s.door_is_open = true → (sensor_tick s inp).1.door_is_open = false →
        (sensor_tick s inp).1.system_armed = true ∧
          last_report param_sec_status (sensor_tick s inp).2 = some (Val.s "Door Locked")) ∧
      Action.report param_sec_status (Val.s "Door Unlocked") ∉ (sensor_tick s inp).2 ∧
      ((run_keys { State.init with system_armed := false, door_is_open := true }
            ['2', '5', '8', '0', '#']).system_armed = true ∧
        (run_keys { State.init with system_armed := false, door_is_open := true }
            ['2', '5', '8', '0', '#']).door_is_open = true) := by
  refine ⟨?_, ?_, ?_, by decide⟩
  · simp only [sensor_tick, sensor_door]
    cases ha : s.system_armed <;> cases hd : s.door_is_open <;>
      cases hp : person_nearby inp.dist <;>
      by_cases ht : inp.t_check - s.last_activity_time > 10000000 <;>
      by_cases ht2 : inp.t_check - inp.t_stamp > 10000000 <;>
      simp [ha, hd, hp, ht, ht2]
  · intro hd
    simp only [sensor_tick, sensor_door]
    cases ha : s.system_armed <;> cases hp : person_nearby inp.dist <;>
      cases hb : inp.blinking_active <;>
      by_cases ht : inp.t_check - s.last_activity_time > 10000000 <;>
      by_cases ht2 : inp.t_check - inp.t_stamp > 10000000 <;>
      simp [ha, hd, hp, hb, ht, ht2, sensor_leds, last_report, send_alert, param_sec_status,
        param_alert, param_door_status, param_home_door, param_home_sec]
  · simp only [sensor_tick, sensor_door]
    cases ha : s.system_armed <;> cases hd : s.door_is_open <;>
      cases hp : person_nearby inp.dist <;> cases hb : inp.blinking_active <;>
      by_cases ht : inp.t_check - s.last_activity_time > 10000000 <;>
      by_cases ht2 : inp.t_check - inp.t_stamp > 10000000 <;>
      simp [ha, hd, hp, hb, ht, ht2, sensor_leds, send_alert, param_sec_status,
        param_alert, param_door_status, param_home_door, param_home_sec]

theorem C18_tick_armed_or_closed_witness :
    (sensor_tick { State.init with door_is_open := true } ⟨-1, 0, 0, false⟩).1.system_armed
        = true ∧
      last_report param_sec_status
          (sensor_tick { State.init with door_is_open := true } ⟨-1, 0, 0, false⟩).2
        = some (Val.s "Door Locked") :=
  (C18_tick_armed_or_closed { State.init with door_is_open := true } ⟨-1, 0, 0, false⟩).2.1
    rfl (by decide)


/-! ### Passwords the keypad cannot enter -/

theorem buf_digits_step (s : State) (key : Char) (h : buf_digits s) :
    buf_digits (keypad_key s key).1 := by
  by_cases hd : '0' ≤ key ∧ key ≤ '9'
  · have hk : is_digit key := hd
    simp only [keypad_key, keypad_dispatch_digit s key hd.1 hd.2]
    split_ifs with h4
    · obtain ⟨sa, sd, ⟨b0, b1, b2, b3, b4⟩, idx, rest⟩ := s
      simp only at h4
      have : idx = 0 ∨ idx = 1 ∨ idx = 2 ∨ idx = 3 := by omega
      rcases this with rfl | rfl | rfl | rfl <;> simp_all [buf_digits, Buf5.set]
    · exact h
  · simp only [keypad_key, keypad_dispatch, hd, if_false]
    split_ifs
    all_goals first | exact h | simp [buf_digits, Buf5.zero]

theorem buf_digits_cstr (s : State) (h : buf_digits s) :
    s.password_buffer.cstr.length = s.password_index ∧ s.password_index ≤ 4 ∧
      ∀ c ∈ s.password_buffer.cstr, is_digit c := by
  obtain ⟨sa, sd, ⟨b0, b1, b2, b3, b4⟩, idx, rest⟩ := s
  match idx, h with
  | 0, h => simp_all [buf_digits, Buf5.cstr, Buf5.toList, List.takeWhile_cons]
  | 1, h =>
    have n0 := digit_ne_NUL b0 h.1.1
    simp_all [buf_digits, Buf5.cstr, Buf5.toList, List.takeWhile_cons]
  | 2, h =>
    have n0 := digit_ne_NUL b0 h.1.1
    have n1 := digit_ne_NUL b1 h.2.1.1
    simp_all [buf_digits, Buf5.cstr, Buf5.toList, List.takeWhile_cons]
  | 3, h =>
    have n0 := digit_ne_NUL b0 h.1.1
    have n1 := digit_ne_NUL b1 h.2.1.1
    have n2 := digit_ne_NUL b2 h.2.2.1.1
    simp_all [buf_digits, Buf5.cstr, Buf5.toList, List.takeWhile_cons]
  | 4, h =>
    have n0 := digit_ne_NUL b0 h.1.1
    have n1 := digit_ne_NUL b1 h.2.1.1
    have n2 := digit_ne_NUL b2 h.2.2.1.1
    have n3 := digit_ne_NUL b3 h.2.2.2.1.1
    simp_all [buf_digits, Buf5.cstr, Buf5.toList, List.takeWhile_cons]
  | n + 5, h => simp [buf_digits] at h

/-- A digit buffer never compares equal to a non-empty password that is not a string
of 1 to 4 digits. -/
theorem strcmp_never_matches (s : State) (hbuf : buf_digits s)
    (hne : s.master_password ≠ "") (hnd : ¬ digits_1_to_4 s.master_password) :
    strcmp_eq s.password_buffer s.master_password = false := by
  obtain ⟨hlen, hle, hdig⟩ := buf_digits_cstr s hbuf
  by_contra hc
  have heq : s.password_buffer.cstr = s.master_password.data := by
    simpa [strcmp_eq] using hc
  apply hnd
  have hdata : s.master_password.data ≠ [] := by
    intro hnil
    exact hne (String.ext hnil)
  refine ⟨?_, ?_, ?_⟩
  · exact List.length_pos.mpr hdata
  · rw [← heq, hlen]; exact hle
  · rw [← heq]; exact hdig

theorem keypad_key_master (s : State) (key : Char) :
    (keypad_key s key).1.master_password = s.master_password := by
  simp only [keypad_key, keypad_dispatch]
  split_ifs <;> rfl

theorem keypad_key_armed_of_mismatch (s : State) (key : Char)
    (h : strcmp_eq s.password_buffer s.master_password = false) :
    (keypad_key s key).1.system_armed = s.system_armed := by
  simp only [keypad_key, keypad_dispatch, h]
  split_ifs <;> first | rfl | simp_all

theorem run_keys_unenterable (keys : List Char) :
    ∀ s : State, buf_digits s → s.master_password ≠ "" →
      ¬ digits_1_to_4 s.master_password →
      buf_digits (run_keys s keys) ∧
        (run_keys s keys).master_password = s.master_password ∧
        (run_keys s keys).system_armed = s.system_armed := by
  induction keys with
  | nil => intro s hb _ _; exact ⟨hb, rfl, rfl⟩
  | cons k ks ih =>
    intro s hb hne hnd
    have hm := keypad_key_master s k
    have ha := keypad_key_armed_of_mismatch s k (strcmp_never_matches s hb hne hnd)
    obtain ⟨h1, h2, h3⟩ := ih (keypad_key s k).1 (buf_digits_step s k hb)
      (by rw [hm]; exact hne) (by rw [hm]; exact hnd)
    exact ⟨h1, h2.trans hm, h3.trans ha⟩

theorem buf_digits_congr (s t : State) (hi : t.password_index = s.password_index)
    (hb : t.password_buffer = s.password_buffer) (h : buf_digits s) : buf_digits t := by
  unfold buf_digits at h ⊢
  rw [hi, hb]
  exact h

theorem sensor_tick_password (s : State) (inp : TickInput) :
    (sensor_tick s inp).1.password_index = s.password_index ∧
      (sensor_tick s inp).1.password_buffer = s.password_buffer ∧
      (sensor_tick s inp).1.master_password = s.master_password := by
  simp only [sensor_tick, sensor_door]
  split_ifs <;> exact ⟨rfl, rfl, rfl⟩

theorem write_power_password (s : State) (device_name : String) (state : Bool) :
    (write_power s device_name state).1.password_index = s.password_index ∧
      (write_power s device_name state).1.password_buffer = s.password_buffer ∧
      (write_power s device_name state).1.master_password = s.master_password ∧
      stored_by (write_power s device_name state).2.2 = none := by
  simp only [write_power, write_fan_power, write_light_power, write_tv_power, write_plug_power]
  split_ifs <;> refine ⟨rfl, rfl, rfl, ?_⟩ <;> simp [stored_by, send_alert]

theorem stored_by_append_none (xs ys : List Action) (hx : stored_by xs = none)
    (hy : stored_by ys = none) : stored_by (xs ++ ys) = none := by
  unfold stored_by at hx hy ⊢
  rw [List.filterMap_append]
  simp only [List.getLast?_eq_none_iff] at hx hy ⊢
  rw [hx, hy]
  rfl

theorem write_cb_password (s : State) (device_name param_name : String) (val : Val) :
    (write_cb s device_name param_name val).1.password_index = s.password_index ∧
      (write_cb s device_name param_name val).1.password_buffer = s.password_buffer ∧
      ((write_cb s device_name param_name val).1.master_password = s.master_password ∨
        accepted (write_cb s device_name param_name val).1.master_password) ∧
      ∀ m, stored_by (write_cb s device_name param_name val).2 = some m → accepted m := by
  have hp := write_power_password s device_name val.getB
  by_cases h1 : param_name = "Set Password"
  · by_cases h2 : 0 < val.getS.utf8ByteSize ∧ val.getS.utf8ByteSize < 16
    · have hacc : accepted val.getS := ⟨by omega, by omega⟩
      have hw : write_cb s device_name param_name val
          = ({ s with master_password := val.getS },
              [Action.nvs_store "master_pw" val.getS]
              ++ send_alert "Security Password Changed via App"
              ++ [Action.report ⟨device_name, param_name⟩ (Val.s "Updated")]) := by
        simp only [write_cb, h1, h2, and_self, if_true]
      rw [hw]
      refine ⟨rfl, rfl, Or.inr hacc, ?_⟩
      intro m hm
      simp [stored_by, send_alert] at hm
      rw [← hm]
      exact hacc
    · have hw : write_cb s device_name param_name val
          = (s, [Action.report ⟨device_name, param_name⟩ (Val.s "Invalid")]) := by
        simp only [write_cb, h1, h2, if_true, if_false]
      rw [hw]
      refine ⟨rfl, rfl, Or.inl rfl, ?_⟩
      intro m hm
      simp [stored_by] at hm
  · by_cases h3 : param_name = "Speed"
    · by_cases h4 : device_name = "Fan"
      · simp only [write_cb, h1, h3, h4, if_true, if_false]
        refine ⟨rfl, rfl, Or.inl rfl, ?_⟩
        intro m hm
        simp [stored_by, send_alert] at hm
      · simp only [write_cb, h1, h3, h4, if_true, if_false]
        refine ⟨rfl, rfl, Or.inl rfl, ?_⟩
        intro m hm
        simp [stored_by] at hm
    · by_cases h5 : param_name = "Power"
      · subst h5
        have hw : write_cb s device_name "Power" val
            = ((write_power s device_name val.getB).1,
                (write_power s device_name val.getB).2.2
                ++ (if ((write_power s device_name val.getB).2.1 && val.getB) = true
                    then [Action.buzzer_fan_sound] else [])
                ++ [Action.report ⟨device_name, "Power"⟩ val]) := by
          simp [write_cb]
        have hnone : stored_by ((write_power s device_name val.getB).2.2
            ++ (if ((write_power s device_name val.getB).2.1 && val.getB) = true
                then [Action.buzzer_fan_sound] else [])
            ++ [Action.report ⟨device_name, "Power"⟩ val]) = none := by
          apply stored_by_append_none
          · apply stored_by_append_none _ _ hp.2.2.2
            split_ifs <;> simp [stored_by]
          · simp [stored_by]
        rw [hw]
        refine ⟨hp.1, hp.2.1, Or.inl hp.2.2.1, ?_⟩
        intro m hm
        rw [hnone] at hm
        exact Option.noConfusion hm
      · have hw : write_cb s device_name param_name val = (s, []) := by
          simp only [write_cb, h1, h3, h5, if_false]
        rw [hw]
        refine ⟨rfl, rfl, Or.inl rfl, ?_⟩
        intro m hm
        simp [stored_by] at hm

theorem boot_producible (nvs : Option String) (h : ∀ m, nvs = some m → accepted m) :
    buf_digits (boot nvs) ∧ accepted (boot nvs).master_password := by
  cases nvs with
  | none => exact ⟨rfl, by unfold accepted; decide⟩
  | some m =>
    have hm := h m rfl
    have hlt : m.utf8ByteSize < 16 := by have := hm.2; omega
    simp only [boot, hlt, if_true]
    exact ⟨rfl, hm⟩

theorem init_producible : buf_digits State.init ∧ accepted State.init.master_password :=
  ⟨rfl, by unfold accepted; decide⟩

theorem apply_producible (y : Sys) (op : Op) (h : producible y) : producible (op.apply y) := by
  obtain ⟨hb, hm, hn⟩ := h
  cases op with
  | key k =>
    refine ⟨buf_digits_step y.st k hb, ?_, hn⟩
    show accepted (keypad_key y.st k).1.master_password
    rw [keypad_key_master]
    exact hm
  | tick inp =>
    have ht := sensor_tick_password y.st inp
    refine ⟨buf_digits_congr y.st _ ht.1 ht.2.1 hb, ?_, hn⟩
    show accepted (sensor_tick y.st inp).1.master_password
    rw [ht.2.2]
    exact hm
  | remote device_name param_name val nvs_ok =>
    have hw := write_cb_password y.st device_name param_name val
    refine ⟨buf_digits_congr y.st _ hw.1 hw.2.1 hb, ?_, ?_⟩
    · show accepted (write_cb y.st device_name param_name val).1.master_password
      rcases hw.2.2.1 with heq | hacc
      · rw [heq]; exact hm
      · exact hacc
    · intro m
      show (if nvs_ok = true then
          (match stored_by (write_cb y.st device_name param_name val).2 with
            | some m => some m
            | none => y.nvs)
          else y.nvs) = some m → accepted m
      cases nvs_ok
      · simpa using hn m
      · simp only [if_true]
        cases hs : stored_by (write_cb y.st device_name param_name val).2 with
        | none => simpa using hn m
        | some v =>
          intro hv
          simp only [Option.some.injEq] at hv
          rw [← hv]
          exact hw.2.2.2 v hs
  | reboot erased nvs_ok =>
    have hn2 : ∀ m, (if erased = true then none else y.nvs) = some m → accepted m := by
      intro m
      cases erased
      · simpa using hn m
      · simp
    refine ⟨?_, ?_, hn2⟩
    · show buf_digits (if nvs_ok = true then boot (if erased = true then none else y.nvs)
        else State.init)
      cases nvs_ok
      · exact init_producible.1
      · exact (boot_producible _ hn2).1
    · show accepted (if nvs_ok = true then boot (if erased = true then none else y.nvs)
        else State.init).master_password
      cases nvs_ok
      · exact init_producible.2
      · exact (boot_producible _ hn2).2

theorem run_ops_producible (ops : List Op) :
    ∀ y : Sys, producible y → producible (run_ops y ops) := by
  induction ops with
  | nil => intro y h; exact h
  | cons op rest ih => intro y h; exact ih _ (apply_producible y op h)

theorem factory_producible : producible Sys.factory :=
  ⟨init_producible.1, init_producible.2, fun _ hm => Option.noConfusion hm⟩

theorem accepted_ne_empty (m : String) (h : accepted m) : m ≠ "" := by
  rintro rfl
  unfold accepted at h
  exact absurd h.1 (by decide)

/-- From a state with a digit buffer and a non-empty password that is not a string
of 1 to 4 digits, no sequence of keys and no further key changes `system_armed`. -/
theorem keys_cannot_toggle (s : State) (keys : List Char)
    (hbuf : buf_digits s) (hne : s.master_password ≠ "")
    (hnd : ¬ digits_1_to_4 s.master_password) :
    (∀ key : Char,
        (keypad_key (run_keys s keys) key).1.system_armed = (run_keys s keys).system_armed) ∧
      (run_keys s keys).system_armed = s.system_armed := by
  obtain ⟨h1, h2, h3⟩ := run_keys_unenterable keys s hbuf hne hnd
  refine ⟨?_, h3⟩
  intro key
  exact keypad_key_armed_of_mismatch _ key
    (strcmp_never_matches _ h1 (by rw [h2]; exact hne) (by rw [h2]; exact hnd))

/-- C19: in every state the device produces (from the factory state by any key
presses, monitor ticks, remote commands and restarts) whose `master_password` is not a
string of 1 to 4 decimal digits, after every sequence of key presses no key press
changes `system_armed`, which keeps its starting value; yet the remote "Set Password"
accepts that very password: it makes it the `master_password` and reports "Updated". -/
theorem C19_keypad_cannot_toggle (ops : List Op) (keys : List Char)
    (hnd : ¬ digits_1_to_4 (run_ops Sys.factory ops).st.master_password) :
    (∀ key : Char,
        (keypad_key (run_keys (run_ops Sys.factory ops).st keys) key).1.system_armed
          = (run_keys (run_ops Sys.factory ops).st keys).system_armed) ∧
      (run_keys (run_ops Sys.factory ops).st keys).system_armed
        = (run_ops Sys.factory ops).st.system_armed ∧
      (∀ (t : State) (device_name : String),
        (write_cb t device_name "Set Password"
            (Val.s (run_ops Sys.factory ops).st.master_password)).1.master_password
          = (run_ops Sys.factory ops).st.master_password ∧
        Action.report ⟨device_name, "Set Password"⟩ (Val.s "Updated")
          ∈ (write_cb t device_name "Set Password"
              (Val.s (run_ops Sys.factory ops).st.master_password)).2) := by
  obtain ⟨hb, hm, _⟩ := run_ops_producible ops Sys.factory factory_producible
  have hk := keys_cannot_toggle (run_ops Sys.factory ops).st keys hb
    (accepted_ne_empty _ hm) hnd
  refine ⟨hk.1, hk.2, ?_⟩
  intro t device_name
  have hc : 0 < (run_ops Sys.factory ops).st.master_password.utf8ByteSize ∧
      (run_ops Sys.factory ops).st.master_password.utf8ByteSize < 16 :=
    ⟨by have := hm.1; omega, by have := hm.2; omega⟩
  simp [write_cb, Val.getS, hc]

theorem C19_keypad_cannot_toggle_witness :
    (run_keys
        (run_ops Sys.factory [Op.remote "Security" "Set Password" (Val.s "12345") true]).st
        ['1', '2', '3', '4', '5', '#']).system_armed
      = (run_ops Sys.factory
          [Op.remote "Security" "Set Password" (Val.s "12345") true]).st.system_armed :=
  (C19_keypad_cannot_toggle [Op.remote "Security" "Set Password" (Val.s "12345") true]
    ['1', '2', '3', '4', '5', '#'] (fun h => absurd h.2.1 (by decide))).2.1

end SmartHome
